import Mathlib

/-!
# Thalexa (`src/app.js`): session and workflow controller

A shallow embedding of the `Thalexa` class of `src/app.js`.

* A JavaScript string is the list of its UTF-16 code units (`JsString`), so `length`,
  `substring` and `split` count what the source counts.
* A JavaScript number is `NaN`, an infinity or a rational (`JsNum`); every finite double is a
  rational, so a statement over all `JsNum` covers every number the source can hold.
* `this.state` is the record `State`; `localStorage` is the record `Storage` with the three keys
  the source reads or writes; the toasts shown, the page rendered and the modal held in
  `modalsContainer` are the remaining fields of `App`.
* What a method reads from the controls of the document is an argument of its function.
* A method that schedules a `setTimeout` callback is split in two functions: `...Start` is the
  synchronous part, `...Settle` is the callback, run on whatever the application is when the
  timer fires.  What the callback draws from the platform (`Math.random`, `Date.now`, whether
  `localStorage.setItem` succeeds) is an explicit argument.
* The host page is assumed to provide `toastContainer`, `pageContent` and `modalsContainer`.
-/

namespace Thalexa

/-! ## Strings and numbers -/

/-- A JavaScript string, as the list of its UTF-16 code units. -/
abbrev JsString := List Nat

/-- The code units of a string literal of the source. -/
def lit (s : String) : JsString := s.toList.map Char.toNat

/-- JavaScript truthiness of a value that is a string or `undefined`: `undefined` and the
empty string are falsy. -/
def truthyStr : Option JsString → Bool
  | none => false
  | some s => !s.isEmpty

/-- A template literal's rendering of a value that is a string or `undefined`. -/
def tmplStr : Option JsString → JsString
  | none => lit "undefined"
  | some s => s

/-- The code units that `String.prototype.trim` removes (white space and line terminators). -/
def isWhiteSpace (c : Nat) : Bool :=
  c = 9 || c = 10 || c = 11 || c = 12 || c = 13 || c = 32 || c = 160 || c = 5760
    || (8192 ≤ c && c ≤ 8202) || c = 8232 || c = 8233 || c = 8239 || c = 8287
    || c = 12288 || c = 65279

/-- `String.prototype.trim`. -/
def trim (s : JsString) : JsString :=
  ((s.dropWhile isWhiteSpace).reverse.dropWhile isWhiteSpace).reverse

/-- `String.prototype.split` with a separator of one code unit. -/
def split (sep : Nat) : JsString → List JsString
  | [] => [[]]
  | c :: cs =>
    if c = sep then [] :: split sep cs
    else
      match split sep cs with
      | [] => [[c]]
      | part :: parts => (c :: part) :: parts

/-- A JavaScript number. -/
inductive JsNum where
  | nan
  | inf (negative : Bool)
  | fin (q : ℚ)
deriving DecidableEq

namespace JsNum

/-- Truthiness: `NaN` and zero are falsy. -/
def truthy : JsNum → Bool
  | nan => false
  | inf _ => true
  | fin q => decide (q ≠ 0)

/-- The comparison `x <= 0`. -/
def leZero : JsNum → Bool
  | nan => false
  | inf negative => negative
  | fin q => decide (q ≤ 0)

/-- The comparison `x > 0`. -/
def gtZero : JsNum → Bool
  | nan => false
  | inf negative => !negative
  | fin q => decide (0 < q)

/-- The expression `x || 0`. -/
def orZero (x : JsNum) : JsNum := if x.truthy then x else fin 0

/-- The product `x * m` for a positive finite `m`, taken exactly: the rounding of the
double-precision product is not modelled. -/
def mulBy (x : JsNum) (m : ℚ) : JsNum :=
  match x with
  | nan => nan
  | inf negative => inf negative
  | fin q => fin (q * m)

end JsNum

/-- A numeric field of the state: a number, or `null`, which is what a number that is not
finite becomes when it is written by `JSON.stringify` and read back. -/
inductive NumField where
  | null
  | num (n : JsNum)
deriving DecidableEq

/-- The value `JSON.parse (JSON.stringify x)` of a numeric field. -/
def NumField.json : NumField → NumField
  | .num (.fin q) => .num (.fin q)
  | _ => .null

/-! ## Data model -/

/-- The `user` record of the state. -/
structure User where
  id : JsString
  email : JsString
  name : JsString
  provider : JsString
deriving DecidableEq

/-- The `wallet` record of the state. -/
structure Wallet where
  address : JsString
  provider : JsString
  connected : Bool
deriving DecidableEq

/-- The fields read from the product form (`productData`, lines 1108-1116). -/
structure ProductData where
  name : JsString
  description : JsString
  manufacturer : JsString
  sku : JsString
  productionDate : JsString
  price : JsNum
  metadata : JsString
deriving DecidableEq

/-- The `owner` property of a product.  Line 1132 writes `wallet?.address`, which is
`undefined` when no wallet is bound; `JSON.stringify` leaves such a property out, so the
product read back has no `owner` key at all. -/
inductive Owner where
  /-- The product has no `owner` key. -/
  | absent
  /-- The key is there and its value is `undefined`. -/
  | undefined
  /-- The key holds an address. -/
  | address (a : JsString)
deriving DecidableEq

/-- An element of `state.products` (lines 1128-1136). -/
structure Product where
  id : JsString
  name : JsString
  description : JsString
  manufacturer : JsString
  sku : JsString
  productionDate : JsString
  price : NumField
  metadata : JsString
  created : JsString
  owner : Owner
  contractAddress : JsString
  verified : Bool
  qrCode : JsString
deriving DecidableEq

/-- The object handed to `addNotification` (lines 1388-1393). -/
structure NotificationData where
  type : JsString
  title : JsString
  message : JsString
  timestamp : Int
deriving DecidableEq

/-- An element of `state.notifications` (lines 1405-1409). -/
structure Notification where
  type : JsString
  title : JsString
  message : JsString
  timestamp : Int
  id : Int
  read : Bool
deriving DecidableEq

/-- The object `this.state` (lines 4-13), with the `currency` key that `saveSettings` may add. -/
structure State where
  user : Option User
  wallet : Option Wallet
  isAuthenticated : Bool
  balances : List (JsString × NumField)
  products : List Product
  notifications : List Notification
  network : JsString
  theme : JsString
  currency : Option JsString
deriving DecidableEq

/-- The state the constructor builds (lines 4-13). -/
def defaultState : State where
  user := none
  wallet := none
  isAuthenticated := false
  balances := []
  products := []
  notifications := []
  network := lit "mainnet"
  theme := lit "dark"
  currency := none

/-! ## Persisted store -/

/-- What `JSON.parse` makes of a stored state: for each key of the state, the value stored
under it when the key is there. -/
structure Snapshot where
  user : Option (Option User)
  wallet : Option (Option Wallet)
  isAuthenticated : Option Bool
  balances : Option (List (JsString × NumField))
  products : Option (List Product)
  notifications : Option (List Notification)
  network : Option JsString
  theme : Option JsString
  currency : Option JsString
deriving DecidableEq

/-- The text held under a `localStorage` key, by what the reading code makes of it. -/
inductive Stored (α : Type) where
  /-- The empty string, which is falsy. -/
  | blank
  /-- Text that `JSON.parse` rejects. -/
  | corrupt
  /-- Text that `JSON.parse` accepts, with the value it yields. -/
  | json (v : α)
deriving DecidableEq

/-- The three `localStorage` keys of the program (`none`: `getItem` returns `null`). -/
structure Storage where
  thalexa_state : Option (Stored Snapshot)
  thalexa_theme : Option JsString
  thalexa_wallet : Option (Stored (Option Wallet))
deriving DecidableEq

/-- The storage after `localStorage.clear()`. -/
def Storage.empty : Storage := ⟨none, none, none⟩

/-- The value `JSON.parse (JSON.stringify x)` of an `owner` property: a property whose value
is `undefined` is not written. -/
def Owner.json : Owner → Owner
  | .address a => .address a
  | _ => .absent

/-- A product as `JSON.stringify` writes it and `JSON.parse` reads it back. -/
def Product.json (p : Product) : Product :=
  { p with price := p.price.json, owner := p.owner.json }

/-- The parse of `JSON.stringify(this.state)`: every key is written, except `currency` when the
state has none. -/
def stringify (s : State) : Snapshot where
  user := some s.user
  wallet := some s.wallet
  isAuthenticated := some s.isAuthenticated
  balances := some (s.balances.map fun kv => (kv.1, kv.2.json))
  products := some (s.products.map Product.json)
  notifications := some s.notifications
  network := some s.network
  theme := some s.theme
  currency := s.currency

/-- The object spread `{ ...this.state, ...state }` of line 74. -/
def merge (s : State) (snap : Snapshot) : State where
  user := snap.user.getD s.user
  wallet := snap.wallet.getD s.wallet
  isAuthenticated := snap.isAuthenticated.getD s.isAuthenticated
  balances := snap.balances.getD s.balances
  products := snap.products.getD s.products
  notifications := snap.notifications.getD s.notifications
  network := snap.network.getD s.network
  theme := snap.theme.getD s.theme
  currency := match snap.currency with
    | some c => some c
    | none => s.currency

/-! ## The application -/

/-- The `type` argument of `showToast`. -/
inductive Level where
  | info
  | success
  | warning
  | error
deriving DecidableEq

/-- One call of `showToast`. -/
structure Toast where
  message : JsString
  level : Level
deriving DecidableEq

/-- The render function whose result is in `pageContent`. -/
inductive View where
  | home
  | dashboard
  | wallet
  | products
  | verify
  | settings
deriving DecidableEq

/-- The modal dialogs of the program. -/
inductive Modal where
  | walletModal
  | emailModal
  | productModal
  | sendModal
  | receiveModal
  | seedModal
  | importModal
deriving DecidableEq

/-- The application: the state, the store, and what the view layer has been told. -/
structure App where
  state : State
  storage : Storage
  /-- The toasts shown so far, the latest first. -/
  toasts : List Toast
  /-- What `loadPage` rendered last. -/
  page : Option View
  /-- The modal whose markup is in `modalsContainer`; it stays there when the modal is hidden. -/
  modal : Option Modal
  /-- Whether that modal is shown. -/
  modalOpen : Bool
deriving DecidableEq

/-- The markup of a modal is put in `modalsContainer` and the modal is shown (for instance
lines 825-867). -/
def openModal (a : App) (m : Modal) : App := { a with modal := some m, modalOpen := true }

/-- `showToast(message, type)` (lines 1421-1457). -/
def showToast (a : App) (message : JsString) (level : Level) : App :=
  { a with toasts := ⟨message, level⟩ :: a.toasts }

/-- `bootstrap.Modal.getInstance(document.getElementById(...))` followed by
`if (modal) modal.hide()`: the modal is hidden when its markup is in the document. -/
def hideModal (a : App) (m : Modal) : App :=
  if a.modal = some m then { a with modalOpen := false } else a

/-- `saveState()` (lines 81-87); `ok = false` is the `catch` branch (`setItem` threw). -/
def saveState (ok : Bool) (a : App) : App :=
  if ok then
    { a with storage := { a.storage with thalexa_state := some (.json (stringify a.state)) } }
  else a

/-- `loadState()` (lines 69-79). -/
def loadState (a : App) : App :=
  match a.storage.thalexa_state with
  | some (.json snap) => { a with state := merge a.state snap }
  | _ => a

/-- `addNotification(notification)` (lines 1404-1414); `now` is the reading of `Date.now()`. -/
def addNotification (a : App) (n : NotificationData) (now : Int) (ok : Bool) : App :=
  saveState ok
    { a with state := { a.state with
        notifications :=
          { type := n.type, title := n.title, message := n.message, timestamp := n.timestamp,
            id := now, read := false } :: a.state.notifications } }

/-! ## Router -/

/-- `loadPage(page)` (lines 175-219).  The render functions read nothing from the state; the
recursive call `this.loadPage('home')` of the dashboard guard takes the `home` case. -/
def loadPage (a : App) (page : JsString) : App :=
  if page = lit "home" then { a with page := some .home }
  else if page = lit "dashboard" then
    if !a.state.isAuthenticated then
      { showToast a (lit "Please connect wallet first") .warning with page := some .home }
    else { a with page := some .dashboard }
  else if page = lit "wallet" then { a with page := some .wallet }
  else if page = lit "products" then { a with page := some .products }
  else if page = lit "verify" then { a with page := some .verify }
  else if page = lit "settings" then { a with page := some .settings }
  else { a with page := some .home }

/-! ## Ledger operations -/

/-- `connectWallet()` (lines 814-822) with `showWalletModal()` (lines 824-868). -/
def connectWallet (a : App) : App := openModal a .walletModal

/-- `showProductModal()` (lines 1029-1104). -/
def showProductModal (a : App) : App :=
  if !a.state.isAuthenticated then
    connectWallet (showToast a (lit "Please connect wallet first") .warning)
  else openModal a .productModal

/-- The values `registerProduct` reads from the controls of the product form; `priceParsed` is
`parseFloat` of the value of `productPrice`.  A read that yields `undefined` for the name or
the description is held as the empty string: both are falsy at line 1118, and nothing else is
done with them on that path. -/
structure ProductForm where
  name : JsString
  description : JsString
  manufacturer : JsString
  sku : JsString
  productionDate : JsString
  priceParsed : JsNum
  metadata : JsString
deriving DecidableEq

/-- The synchronous part of `registerProduct()` (lines 1107-1123).  `form = none`: a control
of the form is not in the document, the read throws and the `catch` of line 1159 runs.  The
second component is the `productData` the timer callback closes over, when a timer is set. -/
def registerProductStart (a : App) (form : Option ProductForm) : App × Option ProductData :=
  match form with
  | none => (showToast a (lit "Failed to register product") .error, none)
  | some f =>
    let productData : ProductData :=
      { name := f.name, description := f.description, manufacturer := f.manufacturer,
        sku := f.sku, productionDate := f.productionDate, price := f.priceParsed.orZero,
        metadata := f.metadata }
    if productData.name.isEmpty || productData.description.isEmpty then
      (showToast a (lit "Please fill in required fields") .error, none)
    else
      (showToast a (lit "Registering product on blockchain...") .info, some productData)

/-- What the callback of `registerProduct` draws from the platform. -/
structure RegisterEnv where
  /-- The value of `Math.random().toString(36).substr(2, 9)` (line 1127). -/
  rand36 : JsString
  /-- The value of `new Date().toISOString()` (line 1131). -/
  isoNow : JsString
  /-- The value of `Math.random().toString(16).substr(2, 40)` (line 1133). -/
  rand16 : JsString
  /-- Whether `localStorage.setItem` succeeds. -/
  storageOk : Bool
  /-- Whether `window.location.hash === '#products'`. -/
  onProducts : Bool
deriving DecidableEq

/-- The object `product` of lines 1127-1136, built in the state `s`. -/
def newProduct (s : State) (pd : ProductData) (env : RegisterEnv) : Product :=
  let productId := lit "prod_" ++ env.rand36
  { id := productId
    name := pd.name
    description := pd.description
    manufacturer := pd.manufacturer
    sku := pd.sku
    productionDate := pd.productionDate
    price := .num pd.price
    metadata := pd.metadata
    created := env.isoNow
    owner := match s.wallet with
      | none => .undefined
      | some w => .address w.address
    contractAddress := lit "0x" ++ env.rand16
    verified := true
    qrCode := lit "https://thalexa.com/verify/" ++ productId }

/-- `generateProductQR(product)` (lines 1165-1175). -/
def generateProductQR (a : App) (_product : Product) : App :=
  showToast a (lit "QR code generated for product!") .success

/-- The timer callback of `registerProduct()` (lines 1126-1157). -/
def registerProductSettle (a : App) (pd : ProductData) (env : RegisterEnv) : App :=
  let product := newProduct a.state pd env
  let a1 := saveState env.storageOk
    { a with state := { a.state with products := a.state.products ++ [product] } }
  let a2 := hideModal a1 .productModal
  let a3 := showToast a2 (lit "Product registered successfully!") .success
  let a4 := generateProductQR a3 product
  if env.onProducts then loadPage a4 (lit "products") else a4

/-- A call of `registerProduct()` whose timer fires before anything else happens. -/
def registerProduct (a : App) (form : Option ProductForm) (env : RegisterEnv) : App :=
  match registerProductStart a form with
  | (a1, none) => a1
  | (a1, some pd) => registerProductSettle a1 pd env

/-- `showSendModal()` (lines 1236-1308). -/
def showSendModal (a : App) : App :=
  if !a.state.isAuthenticated then showToast a (lit "Please connect wallet first") .warning
  else openModal a .sendModal

/-- The values `sendPayment` reads (lines 1369-1371): `recipient` and `token` are `none` when
the control is not in the document, `amount` is the value of `parseFloat`. -/
structure SendInput where
  recipient : Option JsString
  amount : JsNum
  token : Option JsString
deriving DecidableEq

/-- What the timer callback of `sendPayment` closes over. -/
structure SendPending where
  recipient : JsString
  amount : JsNum
  token : Option JsString
deriving DecidableEq

/-- The synchronous part of `sendPayment()` (lines 1369-1378). -/
def sendPaymentStart (a : App) (i : SendInput) : App × Option SendPending :=
  if !truthyStr i.recipient || !i.amount.truthy || i.amount.leZero then
    (showToast a (lit "Please enter valid amount and recipient") .error, none)
  else
    (showToast a (lit "Sending payment...") .info,
      some { recipient := i.recipient.getD [], amount := i.amount, token := i.token })

/-- What the callback of `sendPayment` draws from the platform. -/
structure SendEnv where
  /-- The reading of `Date.now()` of line 1392. -/
  stamp : Int
  /-- The reading of `Date.now()` of line 1407. -/
  now : Int
  /-- Whether `localStorage.setItem` succeeds. -/
  storageOk : Bool
deriving DecidableEq

/-- The message of line 1391; `numStr` is the conversion of a number to a string. -/
def sentMessage (numStr : JsNum → JsString) (p : SendPending) : JsString :=
  lit "Sent " ++ numStr p.amount ++ lit " " ++ tmplStr p.token ++ lit " to "
    ++ p.recipient.take 12 ++ lit "..."

/-- The timer callback of `sendPayment()` (lines 1381-1394). -/
def sendPaymentSettle (numStr : JsNum → JsString) (a : App) (p : SendPending)
    (env : SendEnv) : App :=
  let a1 := hideModal a .sendModal
  let a2 := showToast a1
    (lit "Sent " ++ numStr p.amount ++ lit " " ++ tmplStr p.token ++ lit " successfully!")
    .success
  addNotification a2
    { type := lit "transaction", title := lit "Payment Sent",
      message := sentMessage numStr p, timestamp := env.stamp }
    env.now env.storageOk

/-- A call of `sendPayment()` whose timer fires before anything else happens. -/
def sendPayment (numStr : JsNum → JsString) (a : App) (i : SendInput) (env : SendEnv) : App :=
  match sendPaymentStart a i with
  | (a1, none) => a1
  | (a1, some p) => sendPaymentSettle numStr a1 p env

/-! ## Verification -/

/-- The object `mockProduct` of lines 1202-1210. -/
structure VerifiedProduct where
  id : JsString
  name : JsString
  description : JsString
  manufacturer : JsString
  productionDate : JsString
  created : JsString
  verified : Bool
deriving DecidableEq

/-- The object `mockProduct` that the callback of `verifyProduct` builds (lines 1202-1210). -/
def mockProduct (productId : JsString) : VerifiedProduct :=
  { id := productId
    name := lit "Verified Product"
    description := lit "This product has been verified on the Sui blockchain"
    manufacturer := lit "Example Manufacturer"
    productionDate := lit "2024-01-15"
    created := lit "2024-01-15"
    verified := true }

/-- What `displayVerificationResult` writes in the verification panel of the verify page. -/
structure VerificationPanel where
  productTitle : JsString
  productId : JsString
  productManufacturer : JsString
  productDate : JsString
  productDescription : JsString
  registrationDate : JsString
  badgeClass : JsString
  badgeText : JsString
deriving DecidableEq

/-- `displayVerificationResult(product)` (lines 1217-1233): the panel it shows, `none` when
`verificationResult` is not in the document, that is, when the verify page is not the page
rendered. -/
def displayVerificationResult (a : App) (product : VerifiedProduct) :
    Option VerificationPanel :=
  if a.page = some .verify then
    some
      { productTitle := product.name
        productId := lit "ID: " ++ product.id
        productManufacturer := product.manufacturer
        productDate := product.productionDate
        productDescription := product.description
        registrationDate := product.created
        badgeClass := lit "badge " ++ (if product.verified then lit "bg-success"
          else lit "bg-danger")
        badgeText := if product.verified then lit "Verified ✓" else lit "Invalid" }
  else none

/-- The synchronous part of `verifyProduct()` (lines 1192-1198); `entered = none`: the input
`productIdInput` is not in the document.  The second component is the trimmed id the timer
callback closes over, when a timer is set. -/
def verifyProductStart (a : App) (entered : Option JsString) : App × Option JsString :=
  let productId := entered.map trim
  if !truthyStr productId then
    (showToast a (lit "Please enter product ID") .error, none)
  else
    (showToast a (lit "Verifying product...") .info, some (productId.getD []))

/-- The timer callback of `verifyProduct()` (lines 1201-1214): the application after it, the
product it settles with, and the panel it shows. -/
def verifyProductSettle (a : App) (productId : JsString) :
    App × VerifiedProduct × Option VerificationPanel :=
  let mock := mockProduct productId
  (showToast a (lit "Product verified successfully!") .success, mock,
    displayVerificationResult a mock)

/-- A call of `verifyProduct()` whose timer fires before anything else happens: the
application after it and, when it settles, the product it settles with. -/
def verifyProduct (a : App) (entered : Option JsString) : App × Option VerifiedProduct :=
  match verifyProductStart a entered with
  | (a1, none) => (a1, none)
  | (a1, some productId) =>
    ((verifyProductSettle a1 productId).1, some (verifyProductSettle a1 productId).2.1)

/-! ## Sessions -/

/-- What a connect callback draws from the platform. -/
structure ConnectEnv where
  /-- The value of `Math.random().toString(36).substr(2, 9)` (lines 877, 986). -/
  rand36 : JsString
  /-- The value of `Math.random().toString(16).substr(2, 40)`. -/
  rand16 : JsString
  /-- Whether `localStorage.setItem` succeeds. -/
  storageOk : Bool
deriving DecidableEq

/-- The synchronous part of `connectSuiWallet()` (line 872). -/
def connectSuiWalletStart (a : App) : App := showToast a (lit "Connecting with Google...") .info

/-- The timer callback of `connectSuiWallet()` (lines 874-904). -/
def connectSuiWalletSettle (a : App) (env : ConnectEnv) : App :=
  let s1 : State := { a.state with
    user := some { id := lit "user_" ++ env.rand36, email := lit "user@example.com",
                   name := lit "Google User", provider := lit "google" } }
  let s2 : State := { s1 with
    wallet := some { address := lit "0x" ++ env.rand16, provider := lit "zkLogin",
                     connected := true } }
  let s3 : State := { s2 with isAuthenticated := true }
  let a1 := saveState env.storageOk { a with state := s3 }
  let a2 := hideModal a1 .walletModal
  let a3 := showToast a2 (lit "Successfully connected!") .success
  loadPage a3 (lit "dashboard")

/-- What `connectSuiWalletExtension` gets from `window.suiWallet.requestPermissions()`. -/
inductive ExtensionReply where
  /-- The call throws or its promise is rejected. -/
  | threw
  /-- The promise is fulfilled; `none` is a falsy value. -/
  | accounts (l : Option (List JsString))
deriving DecidableEq

/-- `connectSuiWalletExtension()` (lines 907-940).  `ext = none`: `window.suiWallet` is
undefined.  Nothing of the state is read before the `await`, so the function is run on the
application the `await` resumes in. -/
def connectSuiWalletExtension (a : App) (ext : Option ExtensionReply) (ok : Bool) : App :=
  match ext with
  | none => showToast a (lit "Please install Sui Wallet extension") .warning
  | some .threw => showToast a (lit "Failed to connect Sui wallet") .error
  | some (.accounts none) => a
  | some (.accounts (some [])) => a
  | some (.accounts (some (account :: _))) =>
    let s1 : State := { a.state with
      wallet := some { address := account, provider := lit "Sui Wallet", connected := true } }
    let s2 : State := { s1 with isAuthenticated := true }
    let a1 := saveState ok { a with state := s2 }
    let a2 := hideModal a1 .walletModal
    let a3 := showToast a2 (lit "Sui Wallet connected!") .success
    loadPage a3 (lit "dashboard")

/-- `connectWithEmail()` (lines 942-972). -/
def connectWithEmail (a : App) : App := openModal a .emailModal

/-- The code unit of `@`. -/
def atSign : Nat := 64

/-- The synchronous part of `sendMagicLink()` (lines 975-981); `email = none`: the control
is not in the document.  The second component is the email the callback closes over. -/
def sendMagicLinkStart (a : App) (email : Option JsString) : App × Option JsString :=
  if !truthyStr email || !(email.getD []).contains atSign then
    (showToast a (lit "Please enter a valid email") .error, none)
  else
    (showToast a (lit "Sending magic link...") .info, some (email.getD []))

/-- The timer callback of `sendMagicLink()` (lines 983-1007); `email.split('@')[0]` is the
part of the email before its first `@`. -/
def sendMagicLinkSettle (a : App) (email : JsString) (env : ConnectEnv) : App :=
  let s1 : State := { a.state with
    user := some { id := lit "user_" ++ env.rand36, email := email,
                   name := email.takeWhile (· != atSign), provider := lit "email" } }
  let s2 : State := { s1 with
    wallet := some { address := lit "0x" ++ env.rand16, provider := lit "magic_link",
                     connected := true } }
  let s3 : State := { s2 with isAuthenticated := true }
  let a1 := saveState env.storageOk { a with state := s3 }
  let a2 := hideModal a1 .emailModal
  let a3 := showToast a2 (lit "Check your email for the magic link!") .success
  loadPage a3 (lit "dashboard")

/-- The synchronous part of `importWallet()` (lines 1586-1592); `seed = none`: the text area
is not in the document.  The second component tells whether the timer is set. -/
def importWalletStart (a : App) (seed : Option JsString) : App × Bool :=
  let phrase := seed.map trim
  if !truthyStr phrase || (split 32 (phrase.getD [])).length != 12 then
    (showToast a (lit "Please enter a valid 12-word phrase") .error, false)
  else
    (showToast a (lit "Importing wallet...") .info, true)

/-- The timer callback of `importWallet()` (lines 1594-1610). -/
def importWalletSettle (a : App) (env : ConnectEnv) : App :=
  let s1 : State := { a.state with
    wallet := some { address := lit "0x" ++ env.rand16, provider := lit "imported",
                     connected := true } }
  let s2 : State := { s1 with isAuthenticated := true }
  let a1 := saveState env.storageOk { a with state := s2 }
  let a2 := hideModal a1 .importModal
  let a3 := showToast a2 (lit "Wallet imported successfully!") .success
  loadPage a3 (lit "dashboard")

/-- A call of `importWallet()` whose timer fires before anything else happens. -/
def importWallet (a : App) (seed : Option JsString) (env : ConnectEnv) : App :=
  match importWalletStart a seed with
  | (a1, false) => a1
  | (a1, true) => importWalletSettle a1 env

/-- The synchronous part of `createNewWallet()` (line 1614). -/
def createNewWalletStart (a : App) : App := showToast a (lit "Creating new wallet...") .info

/-- The timer callback of `createNewWallet()` (lines 1616-1629). -/
def createNewWalletSettle (a : App) (env : ConnectEnv) : App :=
  let s1 : State := { a.state with
    wallet := some { address := lit "0x" ++ env.rand16, provider := lit "new",
                     connected := true } }
  let s2 : State := { s1 with isAuthenticated := true }
  let a1 := saveState env.storageOk { a with state := s2 }
  let a2 := showToast a1 (lit "New wallet created!") .success
  loadPage a2 (lit "dashboard")

/-- `logout()` (lines 1488-1499); `confirmed` is the answer to `confirm(...)`. -/
def logout (a : App) (confirmed : Bool) (ok : Bool) : App :=
  if confirmed then
    let s1 : State := { a.state with isAuthenticated := false }
    let s2 : State := { s1 with user := none }
    let s3 : State := { s2 with wallet := none }
    let a1 := saveState ok { a with state := s3 }
    let a2 := showToast a1 (lit "Logged out successfully") .info
    loadPage a2 (lit "home")
  else a

/-! ## Settings, theme, balances -/

/-- `saveSettings()` (lines 1511-1520); the arguments are the values of the two selects,
`none` when a select is not in the document. -/
def saveSettings (a : App) (network currency : Option JsString) (ok : Bool) : App :=
  let s1 : State :=
    if truthyStr network then { a.state with network := network.getD [] } else a.state
  let s2 : State :=
    if truthyStr currency then { s1 with currency := some (currency.getD []) } else s1
  let a1 := saveState ok { a with state := s2 }
  showToast a1 (lit "Settings saved successfully") .success

/-- `toggleTheme()` (lines 1479-1486); `current` is the `data-bs-theme` attribute of the
document.  `setItem` is not guarded here: when it throws, line 1485 is not reached. -/
def toggleTheme (a : App) (current : Option JsString) (ok : Bool) : App :=
  let newTheme := if current = some (lit "dark") then lit "light" else lit "dark"
  if ok then
    { a with
      storage := { a.storage with thalexa_theme := some newTheme }
      state := { a.state with theme := newTheme } }
  else a

/-- One element of the list `getAllBalances` resolves to; `totalBalance` is the value of
`parseInt(balance.totalBalance)`. -/
structure CoinBalance where
  coinType : JsString
  totalBalance : JsNum
deriving DecidableEq

/-- The assignment `balances[key] = value` on an object held as a list of entries. -/
def setKey (key : JsString) (value : NumField) :
    List (JsString × NumField) → List (JsString × NumField)
  | [] => [(key, value)]
  | kv :: rest => if kv.1 = key then (key, value) :: rest else kv :: setKey key value rest

/-- The guard of `updateBalances()` (line 1640): whether the function goes on to the fetch. -/
def updateBalancesGuard (a : App) : Bool := truthyStr (a.state.wallet.map (·.address))

/-- The part of `updateBalances()` after the `await` (lines 1648-1660), run on the application
the `await` resumes in.  `fetched = none`: the fetch failed (no provider, or a rejected
promise) and the `catch` runs.  `perBillion x` is the quotient `x / 1e9` of line 1652, as
double-precision arithmetic gives it. -/
def updateBalancesResume (perBillion : JsNum → JsNum) (a : App)
    (fetched : Option (List CoinBalance)) (ok : Bool) : App :=
  match fetched with
  | none => a
  | some balances =>
    let filled := balances.foldl
      (fun acc balance =>
        if balance.coinType = lit "0x2::sui::SUI" then
          setKey (lit "SUI") (.num (perBillion balance.totalBalance)) acc
        else acc)
      []
    saveState ok { a with state := { a.state with balances := filled } }

/-- `updateBalances()` (lines 1639-1661) when nothing else runs during the fetch. -/
def updateBalances (perBillion : JsNum → JsNum) (a : App)
    (fetched : Option (List CoinBalance)) (ok : Bool) : App :=
  if updateBalancesGuard a then updateBalancesResume perBillion a fetched ok else a

/-! ## Page refresh hooks

`loadPage` leaves `initPageScripts(page)` to run 100 ms after it (line 218).  The hooks write
the document only; what they write is their second component here, `none` when the elements
they write are not in the document, that is, when their page is not the page rendered. -/

/-- `formatAddress(address, length = 6)` (lines 1398-1402); `address = none`: the argument
is `undefined` or `null`. -/
def formatAddress (address : Option JsString) (length : Nat) : JsString :=
  if !truthyStr address then lit "Not connected"
  else if (address.getD []).length ≤ length * 2 then address.getD []
  else
    (address.getD []).take length ++ lit "..."
      ++ (address.getD []).drop ((address.getD []).length - length)

/-- The property `balances[key]`: `none` when `balances` has no such key. -/
def balanceOf (key : JsString) (balances : List (JsString × NumField)) : Option NumField :=
  (balances.find? fun kv => kv.1 = key).map (·.2)

/-- `getTotalBalance()` (lines 808-811): `balances.SUI ? balances.SUI * 1.5 : 0`. -/
def getTotalBalance (s : State) : JsNum :=
  match balanceOf (lit "SUI") s.balances with
  | some (.num n) => if n.truthy then n.mulBy (3 / 2) else .fin 0
  | _ => .fin 0

/-- What `updateDashboard()` writes. -/
structure DashboardRefresh where
  totalBalance : JsString
  productCount : Nat
deriving DecidableEq

/-- `updateDashboard()` (lines 778-791); `toFixed2` is `Number.prototype.toFixed(2)`. -/
def updateDashboard (toFixed2 : JsNum → JsString) (a : App) : App × Option DashboardRefresh :=
  (a,
    if a.page = some .dashboard then
      some { totalBalance := lit "$" ++ toFixed2 (getTotalBalance a.state)
             productCount := a.state.products.length }
    else none)

/-- What `updateWallet()` writes; `walletAddress` is written only when a wallet is bound. -/
structure WalletRefresh where
  walletAddress : Option JsString
  walletTotalBalance : JsString
deriving DecidableEq

/-- `updateWallet()` (lines 793-806). -/
def updateWallet (toFixed2 : JsNum → JsString) (a : App) : App × Option WalletRefresh :=
  (a,
    if a.page = some .wallet then
      some { walletAddress := a.state.wallet.map fun w => formatAddress (some w.address) 6
             walletTotalBalance := lit "$" ++ toFixed2 (getTotalBalance a.state) }
    else none)

/-- What `initSettings()` writes in the two selects. -/
structure SettingsRefresh where
  network : JsString
  currency : JsString
deriving DecidableEq

/-- `initSettings()` (lines 1502-1509). -/
def initSettings (a : App) : App × Option SettingsRefresh :=
  (a,
    if a.page = some .settings then
      some { network := a.state.network
             currency := if truthyStr a.state.currency then a.state.currency.getD []
               else lit "USD" }
    else none)

/-- `initQRScanner()` (lines 1178-1189): whether the placeholder of the scanner is written. -/
def initQRScanner (a : App) : App × Bool := (a, decide (a.page = some .verify))

/-- What a page refresh hook writes. -/
inductive Refresh where
  | dashboard (r : Option DashboardRefresh)
  | wallet (r : Option WalletRefresh)
  | scanner (written : Bool)
  | settings (r : Option SettingsRefresh)
  /-- The page has no hook. -/
  | nothing
deriving DecidableEq

/-- `initPageScripts(page)` (lines 761-776). -/
def initPageScripts (toFixed2 : JsNum → JsString) (a : App) (page : JsString) : App × Refresh :=
  if page = lit "dashboard" then
    ((updateDashboard toFixed2 a).1, .dashboard (updateDashboard toFixed2 a).2)
  else if page = lit "wallet" then
    ((updateWallet toFixed2 a).1, .wallet (updateWallet toFixed2 a).2)
  else if page = lit "verify" then ((initQRScanner a).1, .scanner (initQRScanner a).2)
  else if page = lit "settings" then ((initSettings a).1, .settings (initSettings a).2)
  else (a, .nothing)

/-! ## Start-up -/

/-- `initTheme()` (lines 89-93). -/
def initTheme (a : App) : App :=
  let savedTheme :=
    if truthyStr a.storage.thalexa_theme then a.storage.thalexa_theme.getD [] else lit "dark"
  { a with state := { a.state with theme := savedTheme } }

/-- `initWallet()` (lines 135-149). -/
def initWallet (a : App) : App :=
  match a.storage.thalexa_wallet with
  | some (.json w) => { a with state := { a.state with wallet := w } }
  | _ => a

/-- The constructor (lines 3-26) up to the first `await` of `init()`: the default state,
`loadState()`, `initTheme()`. -/
def boot (storage : Storage) : App :=
  initTheme (loadState
    { state := defaultState, storage := storage, toasts := [], page := none, modal := none,
      modalOpen := false })

/-- A new instance over the store `storage`, as the constructor leaves it before `init()`
runs (lines 4-13): the default state, and nothing shown. -/
def newInstance (storage : Storage) : App :=
  { state := defaultState, storage := storage, toasts := [], page := none, modal := none,
    modalOpen := false }

/-- The state after `saveState()` on `a` and then `loadState()` on a new instance over the
store that `saveState()` left. -/
def saveThenLoad (ok : Bool) (a : App) : State :=
  (loadState (newInstance (saveState ok a).storage)).state

/-- `clearSessions()` (lines 1632-1637): the store is cleared and the page reloaded. -/
def clearSessions (a : App) (confirmed : Bool) : App :=
  if confirmed then boot Storage.empty else a

/-! ## The event loop

The program is single-threaded: a call runs to its first suspension, and a timer callback or
the continuation of an `await` runs later, on the state of that moment.  `Sys` is the
application with the callbacks that are waiting. -/

/-- A callback that is waiting to run, with what it closes over. -/
inductive Timer where
  | connectSuiWallet
  | sendMagicLink (email : JsString)
  | registerProduct (productData : ProductData)
  | sendPayment (p : SendPending)
  | verifyProduct (productId : JsString)
  | importWallet
  | createNewWallet
  /-- The continuation of `await window.suiWallet.requestPermissions()`. -/
  | extensionRequest
  /-- The continuation of `await this.provider.getAllBalances(...)`. -/
  | balancesFetch
  /-- The part of `init()` after `initSupabase` and `initSui` (lines 44-51). -/
  | initRest
deriving DecidableEq

/-- What a call or a callback draws from the platform while it runs. -/
structure Platform where
  rand36 : JsString
  rand16 : JsString
  isoNow : JsString
  stamp : Int
  now : Int
  storageOk : Bool
  onProducts : Bool
  /-- What `requestPermissions()` settles to. -/
  reply : ExtensionReply
  /-- What `getAllBalances(...)` settles to, `none` when it fails. -/
  fetched : Option (List CoinBalance)
  /-- The value of `window.location.hash.replace('#', '')`. -/
  hash : JsString
  /-- The quotient `x / 1e9` as double-precision arithmetic gives it (line 1652). -/
  perBillion : JsNum → JsNum

/-- The part of a `Platform` that a connect callback uses. -/
def Platform.connectEnv (e : Platform) : ConnectEnv := ⟨e.rand36, e.rand16, e.storageOk⟩

/-- The part of a `Platform` that the callback of `registerProduct` uses. -/
def Platform.registerEnv (e : Platform) : RegisterEnv :=
  ⟨e.rand36, e.isoNow, e.rand16, e.storageOk, e.onProducts⟩

/-- The part of a `Platform` that the callback of `sendPayment` uses. -/
def Platform.sendEnv (e : Platform) : SendEnv := ⟨e.stamp, e.now, e.storageOk⟩

/-- A call of a method of the program, with what it reads from the document. -/
inductive Call where
  | connectWallet
  | showProductModal
  | showSendModal
  | connectWithEmail
  | connectSuiWallet
  | connectSuiWalletExtension (installed : Bool)
  | sendMagicLink (email : Option JsString)
  | registerProduct (form : Option ProductForm)
  | sendPayment (i : SendInput)
  | verifyProduct (entered : Option JsString)
  | importWallet (seed : Option JsString)
  | createNewWallet
  | logout (confirmed : Bool)
  | saveSettings (network currency : Option JsString)
  | toggleTheme (current : Option JsString)
  | loadPage (page : JsString)
  | updateBalances
deriving DecidableEq

/-- The application with the callbacks that are waiting. -/
structure Sys where
  app : App
  timers : List Timer
deriving DecidableEq

/-- The synchronous part of a call: the application after it, and the callback it leaves
waiting, if any. -/
def runCall (c : Call) (e : Platform) (a : App) : App × Option Timer :=
  match c with
  | .connectWallet => (connectWallet a, none)
  | .showProductModal => (showProductModal a, none)
  | .showSendModal => (showSendModal a, none)
  | .connectWithEmail => (connectWithEmail a, none)
  | .connectSuiWallet => (connectSuiWalletStart a, some .connectSuiWallet)
  | .connectSuiWalletExtension installed =>
    if installed then (a, some .extensionRequest)
    else (connectSuiWalletExtension a none e.storageOk, none)
  | .sendMagicLink email =>
    ((sendMagicLinkStart a email).1, (sendMagicLinkStart a email).2.map Timer.sendMagicLink)
  | .registerProduct form =>
    ((registerProductStart a form).1,
      (registerProductStart a form).2.map Timer.registerProduct)
  | .sendPayment i =>
    ((sendPaymentStart a i).1, (sendPaymentStart a i).2.map Timer.sendPayment)
  | .verifyProduct entered =>
    ((verifyProductStart a entered).1,
      (verifyProductStart a entered).2.map Timer.verifyProduct)
  | .importWallet seed =>
    ((importWalletStart a seed).1,
      if (importWalletStart a seed).2 then some .importWallet else none)
  | .createNewWallet => (createNewWalletStart a, some .createNewWallet)
  | .logout confirmed => (logout a confirmed e.storageOk, none)
  | .saveSettings network currency => (saveSettings a network currency e.storageOk, none)
  | .toggleTheme current => (toggleTheme a current e.storageOk, none)
  | .loadPage page => (loadPage a page, none)
  | .updateBalances => (a, if updateBalancesGuard a then some .balancesFetch else none)

/-- A waiting callback, run on the application `a`. -/
def fire (numStr : JsNum → JsString) (t : Timer) (e : Platform) (a : App) : App :=
  match t with
  | .connectSuiWallet => connectSuiWalletSettle a e.connectEnv
  | .sendMagicLink email => sendMagicLinkSettle a email e.connectEnv
  | .registerProduct productData => registerProductSettle a productData e.registerEnv
  | .sendPayment p => sendPaymentSettle numStr a p e.sendEnv
  | .verifyProduct productId => (verifyProductSettle a productId).1
  | .importWallet => importWalletSettle a e.connectEnv
  | .createNewWallet => createNewWalletSettle a e.connectEnv
  | .extensionRequest => connectSuiWalletExtension a (some e.reply) e.storageOk
  | .balancesFetch => updateBalancesResume e.perBillion a e.fetched e.storageOk
  | .initRest => loadPage (initWallet a) (if e.hash.isEmpty then lit "home" else e.hash)

/-- What can happen next. -/
inductive Event where
  /-- A method is called. -/
  | call (c : Call) (e : Platform)
  /-- A waiting callback runs. -/
  | fire (t : Timer) (e : Platform)
  /-- The page is reloaded: a new instance is built over the same store. -/
  | reload
  /-- The call `clearSessions()` with the answer to its `confirm(...)`. -/
  | clearSessions (confirmed : Bool)

/-- The system when the page has just been loaded over the store `storage`. -/
def Sys.start (storage : Storage) : Sys := ⟨boot storage, [.initRest]⟩

/-- One event; `none` when the event cannot happen (no such callback is waiting). -/
def Sys.step (numStr : JsNum → JsString) (s : Sys) : Event → Option Sys
  | .call c e => some ⟨(runCall c e s.app).1, s.timers ++ (runCall c e s.app).2.toList⟩
  | .fire t e => if t ∈ s.timers then some ⟨fire numStr t e s.app, s.timers.erase t⟩ else none
  | .reload => some (Sys.start s.app.storage)
  | .clearSessions confirmed => some (if confirmed then Sys.start Storage.empty else s)

/-- A sequence of events; `none` when one of them cannot happen. -/
def Sys.run (numStr : JsNum → JsString) (s : Sys) : List Event → Option Sys
  | [] => some s
  | ev :: rest => (Sys.step numStr s ev).bind fun s' => Sys.run numStr s' rest

/-- The states the program reaches from its first start, over an empty store. -/
inductive Reachable (numStr : JsNum → JsString) : Sys → Prop where
  | start : Reachable numStr (Sys.start Storage.empty)
  | step {s s' : Sys} (ev : Event) :
      Reachable numStr s → Sys.step numStr s ev = some s' → Reachable numStr s'

/-! ## The session invariant -/

/-- The expression `wallet != null && wallet.connected` on a state. -/
def walletConnected (s : State) : Bool :=
  match s.wallet with
  | none => false
  | some w => w.connected

/-- The session invariant on a state: `isAuthenticated == (wallet != null && wallet.connected)`. -/
def Consistent (s : State) : Prop := s.isAuthenticated = walletConnected s

/-- What the program keeps true of the application between two events: the state is consistent,
nothing is stored under `thalexa_wallet` (the program never writes that key), and what is
stored under `thalexa_state` is the text of a consistent state. -/
def Good (a : App) : Prop :=
  Consistent a.state ∧ a.storage.thalexa_wallet = none ∧
  ∀ snap, a.storage.thalexa_state = some (.json snap) →
    ∃ st, snap = stringify st ∧ Consistent st

/-! ## The state as JSON keeps it -/

/-- The state that `JSON.parse (JSON.stringify state)` yields: a number that is not finite
becomes `null`, and an `owner` whose value is `undefined` is left out. -/
def State.json (s : State) : State :=
  { s with
    balances := s.balances.map fun kv => (kv.1, kv.2.json)
    products := s.products.map Product.json }

/-- A numeric field that JSON keeps as it is: `null` or a finite number. -/
def NumField.Stable : NumField → Prop
  | .null => True
  | .num (.fin _) => True
  | .num _ => False

/-- A state that JSON keeps as it is: every balance and every price is `null` or finite, and
no product has an `owner` whose value is `undefined`. -/
def JsonStable (s : State) : Prop :=
  (∀ kv ∈ s.balances, kv.2.Stable) ∧
  ∀ p ∈ s.products, p.price.Stable ∧ p.owner ≠ .undefined

/-! ## Balances as the specification words them -/

/-- The `totalBalance` of the last entry of the fetched list whose coin type is
`0x2::sui::SUI`, if there is one. -/
def lastSuiEntry (l : List CoinBalance) : Option JsNum :=
  ((l.filter fun b => b.coinType = lit "0x2::sui::SUI").getLast?).map (·.totalBalance)

/-- The balances the specification gives for a fetched list: no key but `SUI`, and `SUI`
exactly when the list has an entry of that coin type, valued at the `totalBalance` of the
last such entry divided by 10^9 (`perBillion`, the division of double-precision
arithmetic). -/
def specBalances (perBillion : JsNum → JsNum) (l : List CoinBalance) :
    List (JsString × NumField) :=
  match lastSuiEntry l with
  | none => []
  | some t => [(lit "SUI", .num (perBillion t))]

/-! ## Sequences of registrations, and the inputs of the worked examples -/

/-- A sequence of `addNotification` calls, each with its notification, its reading of
`Date.now()` and the outcome of its write to the store. -/
def notifyAll (a : App) : List (NotificationData × Int × Bool) → App
  | [] => a
  | c :: rest => notifyAll (addNotification a c.1 c.2.1 c.2.2) rest

/-- A sequence of settled `registerProduct` calls: the callbacks run one after the other,
each with the `productData` it closes over and with its own draws from the platform. -/
def settleAll (a : App) : List (ProductData × RegisterEnv) → App
  | [] => a
  | c :: rest => settleAll (registerProductSettle a c.1 c.2) rest

/-- A conversion of numbers to strings that is right on 5, the one amount of the examples. -/
def demoNumStr : JsNum → JsString := fun _ => lit "5"

/-- A division by 10^9 that is right on the totals of the examples: 2500000000 / 1e9 is 2.5
and 1000000000 / 1e9 is 1, both exactly in double precision, and `NaN / 1e9` is `NaN`. -/
def demoPerBillion (x : JsNum) : JsNum :=
  if x = .fin 2500000000 then .fin (5 / 2)
  else if x = .fin 1000000000 then .fin 1
  else .nan

/-- The draws of the platform in the worked examples: `Math.random()` yields 0.5 and then
0.25, and `(0.5).toString(36)` is `0.i`, `(0.25).toString(16)` is `0.4`. -/
def demoPlatform : Platform :=
  { rand36 := lit "i", rand16 := lit "4", isoNow := lit "2024-01-15T00:00:00.000Z",
    stamp := 1700000000000, now := 1700000000000, storageOk := true, onProducts := false,
    reply := .threw, fetched := none, hash := [], perBillion := demoPerBillion }

/-- The application at first start, over an empty store. -/
def freshApp : App := boot Storage.empty

/-- The application when `init()` has finished: the home page is rendered. -/
def startedApp : App := fire demoNumStr .initRest demoPlatform freshApp

/-- The application after a first `connectSuiWallet()` has settled: the wallet `0x4`. -/
def connectedApp : App :=
  connectSuiWalletSettle (connectSuiWalletStart startedApp) demoPlatform.connectEnv

/-- The application after the product form was opened in `connectedApp`. -/
def formOpenApp : App := showProductModal connectedApp

/-- The application after the send form was opened in `connectedApp`. -/
def sendOpenApp : App := showSendModal connectedApp

/-- The application after the product form was opened in `connectedApp` and the user then
logged out: the form is still in the document, and nobody is authenticated. -/
def formLeftApp : App := logout formOpenApp true true

/-- The application after the send form was opened in `connectedApp` and the user then
logged out: the form is still in the document, and nobody is authenticated. -/
def sendLeftApp : App := logout sendOpenApp true true

/-- The events from the first start to `connectedApp`. -/
def connectTrace : List Event :=
  [.fire .initRest demoPlatform, .call .connectSuiWallet demoPlatform,
   .fire .connectSuiWallet demoPlatform]

/-- The events from the first start to `formLeftApp`. -/
def formLeftTrace : List Event :=
  connectTrace ++ [.call .showProductModal demoPlatform, .call (.logout true) demoPlatform]

/-- The events from the first start to `sendLeftApp`. -/
def sendLeftTrace : List Event :=
  connectTrace ++ [.call .showSendModal demoPlatform, .call (.logout true) demoPlatform]

/-- The form of the registration scenario; the price control is empty, so `parseFloat`
yields `NaN`. -/
def widgetForm : ProductForm :=
  { name := lit "Widget", description := lit "A widget", manufacturer := [], sku := [],
    productionDate := [], priceParsed := .nan, metadata := [] }

/-- The `productData` read from `widgetForm`. -/
def widgetData : ProductData :=
  { name := lit "Widget", description := lit "A widget", manufacturer := [], sku := [],
    productionDate := [], price := .fin 0, metadata := [] }

/-- A second `productData`. -/
def gadgetData : ProductData :=
  { name := lit "Gadget", description := lit "A gadget", manufacturer := [], sku := [],
    productionDate := [], price := .fin 0, metadata := [] }

/-- The draws of a registration callback when `Math.random()` yields 0.5 and then 0.25. -/
def demoRegisterEnv : RegisterEnv :=
  { rand36 := lit "i", isoNow := lit "2024-01-15T00:00:00.000Z", rand16 := lit "4",
    storageOk := true, onProducts := false }

/-- The draws of a registration callback when `Math.random()` yields 0.25 and then 0.5:
`(0.25).toString(36)` is `0.9` and `(0.5).toString(16)` is `0.8`. -/
def otherRegisterEnv : RegisterEnv :=
  { rand36 := lit "9", isoNow := lit "2024-01-15T00:00:01.000Z", rand16 := lit "8",
    storageOk := true, onProducts := false }

/-- The input of a payment of 5 SUI to `0xdef`. -/
def demoSend : SendInput :=
  { recipient := some (lit "0xdef"), amount := .fin 5, token := some (lit "SUI") }

/-- The input of the first send-validation scenario: no recipient. -/
def noRecipientSend : SendInput :=
  { recipient := some [], amount := .fin 5, token := some (lit "SUI") }

/-- The clock readings of a payment callback. -/
def demoSendEnv : SendEnv := { stamp := 1700000000000, now := 1700000000000, storageOk := true }

/-- A store whose `thalexa_state` holds text that is not JSON. -/
def corruptStorage : Storage :=
  { thalexa_state := some .corrupt, thalexa_theme := none, thalexa_wallet := none }

/-- A stored state that has the key `network` only. -/
def networkOnlySnapshot : Snapshot :=
  { user := none, wallet := none, isAuthenticated := none, balances := none, products := none,
    notifications := none, network := some (lit "testnet"), theme := none, currency := none }

/-- The application after `registerProduct()` has set its timer in `formOpenApp`. -/
def registeringApp : App := (registerProductStart formOpenApp (some widgetForm)).1

/-- The application after a logout while the timer of `registerProduct()` is waiting, and
then the timer: the product is registered with no wallet bound. -/
def ownerLostApp : App :=
  registerProductSettle (logout registeringApp true true) widgetData demoPlatform.registerEnv

/-- The events from the first start to `ownerLostApp`. -/
def ownerLostTrace : List Event :=
  connectTrace ++
    [.call .showProductModal demoPlatform, .call (.registerProduct (some widgetForm)) demoPlatform,
     .call (.logout true) demoPlatform, .fire (.registerProduct widgetData) demoPlatform]

/-- A fetched list whose one entry has the coin type of SUI and a `totalBalance` that
`parseInt` cannot read. -/
def unreadableBalances : List CoinBalance := [⟨lit "0x2::sui::SUI", .nan⟩]

/-- The draws of the platform when the balance fetch resolves to `unreadableBalances`. -/
def unreadablePlatform : Platform := { demoPlatform with fetched := some unreadableBalances }

/-- The application after `updateBalances()` in `connectedApp` has fetched
`unreadableBalances`. -/
def nanBalanceApp : App :=
  updateBalancesResume demoPerBillion connectedApp (some unreadableBalances) true

/-- The events from the first start to `nanBalanceApp`. -/
def nanBalanceTrace : List Event :=
  connectTrace ++ [.call .updateBalances demoPlatform, .fire .balancesFetch unreadablePlatform]

/-- A fetched list with two entries of SUI, of 1 and 2.5 SUI, and one of another coin. -/
def demoBalances : List CoinBalance :=
  [⟨lit "0x2::sui::SUI", .fin 1000000000⟩, ⟨lit "0x2::usdc::USDC", .fin 7⟩,
   ⟨lit "0x2::sui::SUI", .fin 2500000000⟩]

/-- What the callback of `sendPayment` closes over for `demoSend`. -/
def demoPending : SendPending :=
  { recipient := lit "0xdef", amount := .fin 5, token := some (lit "SUI") }

/-- The application after two `sendPayment()` calls in `sendOpenApp` whose timers fire
within the same millisecond. -/
def twoPaymentsApp : App :=
  sendPaymentSettle demoNumStr
    (sendPaymentSettle demoNumStr
      (sendPaymentStart (sendPaymentStart sendOpenApp demoSend).1 demoSend).1
      demoPending demoPlatform.sendEnv)
    demoPending demoPlatform.sendEnv

/-- The events from the first start to `twoPaymentsApp`. -/
def twoPaymentsTrace : List Event :=
  connectTrace ++
    [.call .showSendModal demoPlatform, .call (.sendPayment demoSend) demoPlatform,
     .call (.sendPayment demoSend) demoPlatform, .fire (.sendPayment demoPending) demoPlatform,
     .fire (.sendPayment demoPending) demoPlatform]

/-- The notification of the payment examples. -/
def demoNotification : NotificationData :=
  { type := lit "transaction", title := lit "Payment Sent",
    message := lit "Sent 5 SUI to 0xdef...", timestamp := 1700000000000 }

/-- The application after the verify page was loaded at the first start: no product is
held. -/
def verifyPageApp : App := loadPage startedApp (lit "verify")

/-- The draws of the platform when the balance fetch resolves to `demoBalances`. -/
def fundedPlatform : Platform := { demoPlatform with fetched := some demoBalances }

/-- The draws of the platform when `Math.random()` yields 0.25 and then 0.5. -/
def otherPlatform : Platform := { demoPlatform with rand36 := lit "9", rand16 := lit "8" }

/-- The application after `updateBalances()` in `connectedApp` has fetched `demoBalances`:
the wallet `0x4` with a balance of 2.5 SUI. -/
def fundedApp : App := updateBalancesResume demoPerBillion connectedApp (some demoBalances) true

/-- The application after `createNewWallet()` has settled in `fundedApp`: the wallet `0x8`. -/
def reboundApp : App :=
  createNewWalletSettle (createNewWalletStart fundedApp) otherPlatform.connectEnv

/-- The events from the first start to `reboundApp`. -/
def reboundTrace : List Event :=
  connectTrace ++
    [.call .updateBalances demoPlatform, .fire .balancesFetch fundedPlatform,
     .call .createNewWallet demoPlatform, .fire .createNewWallet otherPlatform]

/-- A recovery phrase of twelve words, with a blank before and after. -/
def demoPhrase : JsString := lit " a b c d e f g h i j k l "

/-! ## Frame lemmas: what the view-layer helpers leave alone -/

@[simp] theorem showToast_state (a : App) (m : JsString) (l : Level) :
    (showToast a m l).state = a.state := rfl

@[simp] theorem showToast_storage (a : App) (m : JsString) (l : Level) :
    (showToast a m l).storage = a.storage := rfl

@[simp] theorem showToast_toasts (a : App) (m : JsString) (l : Level) :
    (showToast a m l).toasts = ⟨m, l⟩ :: a.toasts := rfl

@[simp] theorem hideModal_state (a : App) (m : Modal) : (hideModal a m).state = a.state := by
  unfold hideModal; split <;> rfl

@[simp] theorem hideModal_storage (a : App) (m : Modal) :
    (hideModal a m).storage = a.storage := by
  unfold hideModal; split <;> rfl

@[simp] theorem hideModal_toasts (a : App) (m : Modal) : (hideModal a m).toasts = a.toasts := by
  unfold hideModal; split <;> rfl

@[simp] theorem saveState_state (ok : Bool) (a : App) : (saveState ok a).state = a.state := by
  unfold saveState; split <;> rfl

@[simp] theorem saveState_toasts (ok : Bool) (a : App) : (saveState ok a).toasts = a.toasts := by
  unfold saveState; split <;> rfl

@[simp] theorem loadPage_state (a : App) (page : JsString) : (loadPage a page).state = a.state := by
  unfold loadPage; repeat (first | rfl | split)

@[simp] theorem loadPage_storage (a : App) (page : JsString) :
    (loadPage a page).storage = a.storage := by
  unfold loadPage; repeat (first | rfl | split)

/-- Loading the products page shows no toast. -/
theorem lit_products_toasts (a : App) : (loadPage a (lit "products")).toasts = a.toasts := by
  have h1 : lit "products" ≠ lit "home" := by decide
  have h2 : lit "products" ≠ lit "dashboard" := by decide
  have h3 : lit "products" ≠ lit "wallet" := by decide
  simp [loadPage, h1, h2, h3]

/-- The test of line 1373 rejects exactly the amounts that are not greater than zero. -/
theorem amount_rejected_iff (x : JsNum) :
    (!x.truthy || x.leZero) = !x.gtZero := by
  cases x with
  | nan => rfl
  | inf negative => cases negative <;> rfl
  | fin q =>
    simp only [JsNum.truthy, JsNum.leZero, JsNum.gtZero]
    rcases lt_trichotomy q 0 with h | h | h
    · have h1 : q ≠ 0 := ne_of_lt h
      have h2 : q ≤ 0 := le_of_lt h
      have h3 : ¬ 0 < q := not_lt.mpr h2
      simp [h1, h2, h3]
    · subst h; simp
    · have h1 : q ≠ 0 := ne_of_gt h
      have h2 : ¬ q ≤ 0 := not_le.mpr h
      simp [h1, h2, h]

/-- What the validation of `sendPayment` rejects. -/
theorem sendPaymentStart_rejects (a : App) (i : SendInput)
    (h : truthyStr i.recipient = false ∨ i.amount.gtZero = false) :
    sendPaymentStart a i
      = (showToast a (lit "Please enter valid amount and recipient") .error, none) := by
  have hc : (!truthyStr i.recipient || !i.amount.truthy || i.amount.leZero) = true := by
    rw [Bool.or_assoc, amount_rejected_iff]
    rcases h with h | h <;> simp [h]
  simp [sendPaymentStart, hc]

/-- What the validation of `sendPayment` lets through. -/
theorem sendPaymentStart_accepts (a : App) (r : JsString) (amount : JsNum)
    (token : Option JsString) (hr : r ≠ []) (ha : amount.gtZero = true) :
    sendPaymentStart a ⟨some r, amount, token⟩
      = (showToast a (lit "Sending payment...") .info, some ⟨r, amount, token⟩) := by
  have hc : (!truthyStr (some r) || !amount.truthy || amount.leZero) = false := by
    rw [Bool.or_assoc, amount_rejected_iff]
    simp [ha, truthyStr, hr]
  simp [sendPaymentStart, hc]

/-- The state after the callback of `sendPayment`. -/
theorem sendPaymentSettle_state (numStr : JsNum → JsString) (a : App) (p : SendPending)
    (env : SendEnv) :
    (sendPaymentSettle numStr a p env).state =
      { a.state with
        notifications :=
          { type := lit "transaction", title := lit "Payment Sent",
            message := sentMessage numStr p, timestamp := env.stamp, id := env.now,
            read := false } :: a.state.notifications } := by
  simp [sendPaymentSettle, addNotification]

/-- What the validation of `registerProduct` lets through. -/
theorem registerProductStart_accepts (a : App) (f : ProductForm)
    (hn : f.name ≠ []) (hd : f.description ≠ []) :
    registerProductStart a (some f)
      = (showToast a (lit "Registering product on blockchain...") .info,
          some { name := f.name, description := f.description, manufacturer := f.manufacturer,
                 sku := f.sku, productionDate := f.productionDate,
                 price := f.priceParsed.orZero, metadata := f.metadata }) := by
  simp [registerProductStart, hn, hd]

/-- The state after the callback of `registerProduct`. -/
theorem registerProductSettle_state (a : App) (pd : ProductData) (env : RegisterEnv) :
    (registerProductSettle a pd env).state =
      { a.state with products := a.state.products ++ [newProduct a.state pd env] } := by
  unfold registerProductSettle
  split <;> simp [generateProductQR]

/-- The toasts after the callback of `registerProduct`. -/
theorem registerProductSettle_toasts (a : App) (pd : ProductData) (env : RegisterEnv) :
    (registerProductSettle a pd env).toasts =
      ⟨lit "QR code generated for product!", .success⟩
        :: ⟨lit "Product registered successfully!", .success⟩ :: a.toasts := by
  unfold registerProductSettle
  split <;> simp [generateProductQR, lit_products_toasts]

/-- The ids after a sequence of settled registrations: each callback appends one product,
whose id is `prod_` followed by its draw. -/
theorem settleAll_ids (calls : List (ProductData × RegisterEnv)) (a : App) :
    (settleAll a calls).state.products.map (·.id)
      = a.state.products.map (·.id) ++ calls.map (fun c => lit "prod_" ++ c.2.rand36) := by
  induction calls generalizing a with
  | nil => simp [settleAll]
  | cons c rest ih =>
    rw [settleAll, ih, registerProductSettle_state]
    simp [newProduct]

/-! ## Registration -/

/-- C2 (as stated, refuted): the program reaches a state in which nobody is authenticated
and the product form is in the document (connect, open the form, log out); there
`registerProduct` with the form `Widget` / `A widget` is not rejected: a timer is set and,
when it fires, `products` holds one more product. -/
theorem registerProduct_unauthenticated_not_rejected :
    Sys.run demoNumStr (Sys.start Storage.empty) formLeftTrace = some ⟨formLeftApp, []⟩ ∧
    formLeftApp.state.isAuthenticated = false ∧
    formLeftApp.modal = some .productModal ∧
    (registerProductStart formLeftApp (some widgetForm)).2 = some widgetData ∧
    (registerProduct formLeftApp (some widgetForm) demoRegisterEnv).state.products
      ≠ formLeftApp.state.products := by
  decide

/-- C2 (amended): in a state that is not authenticated the check is made by
`showProductModal`, which shows the warning `Please connect wallet first`, opens the wallet
selection instead of the product form and leaves state and store alone.  `registerProduct`
makes no check of its own: without the form in the document it fails with
`Failed to register product` and changes neither state nor store, and with a form whose name
and description are not empty it settles as it does when authenticated, appending one product
whose owner is the address of the wallet of that moment (undefined when there is none) and
leaving `notifications` alone. -/
theorem registerProduct_gate (a : App) (h : a.state.isAuthenticated = false) :
    showProductModal a
        = connectWallet (showToast a (lit "Please connect wallet first") .warning) ∧
    (showProductModal a).modal = some .walletModal ∧
    (showProductModal a).state = a.state ∧
    (showProductModal a).storage = a.storage ∧
    (∀ env : RegisterEnv,
      registerProduct a none env = showToast a (lit "Failed to register product") .error) ∧
    (∀ (f : ProductForm) (env : RegisterEnv), f.name ≠ [] → f.description ≠ [] →
      ∃ pd : ProductData,
        (registerProductStart a (some f)).2 = some pd ∧
        pd.name = f.name ∧ pd.description = f.description ∧
        (newProduct a.state pd env).owner
          = (match a.state.wallet with
              | none => .undefined
              | some w => .address w.address) ∧
        (registerProduct a (some f) env).state.products
          = a.state.products ++ [newProduct a.state pd env] ∧
        (registerProduct a (some f) env).state.notifications = a.state.notifications) := by
  have hm : showProductModal a
      = connectWallet (showToast a (lit "Please connect wallet first") .warning) := by
    simp [showProductModal, h]
  refine ⟨hm, by rw [hm]; rfl, by rw [hm]; rfl, by rw [hm]; rfl, fun env => rfl, ?_⟩
  intro f env hn hd
  refine ⟨{ name := f.name, description := f.description, manufacturer := f.manufacturer,
             sku := f.sku, productionDate := f.productionDate,
             price := f.priceParsed.orZero, metadata := f.metadata },
    by rw [registerProductStart_accepts a f hn hd], rfl, rfl, rfl, ?_, ?_⟩
  · simp [registerProduct, registerProductStart_accepts a f hn hd,
      registerProductSettle_state]
  · simp [registerProduct, registerProductStart_accepts a f hn hd,
      registerProductSettle_state]

/-- C2 (amended), in the state left by a logout with the product form still in the
document. -/
theorem registerProduct_gate_witness :
    formLeftApp.state.isAuthenticated = false ∧
    (showProductModal formLeftApp).modal = some .walletModal ∧
    (registerProduct formLeftApp (some widgetForm) demoRegisterEnv).state.products.length
      = formLeftApp.state.products.length + 1 :=
  ⟨by decide, (registerProduct_gate formLeftApp (by decide)).2.1,
    by
      obtain ⟨pd, _, _, _, _, hp, _⟩ :=
        (registerProduct_gate formLeftApp (by decide)).2.2.2.2.2 widgetForm demoRegisterEnv
          (by decide) (by decide)
      rw [hp]
      simp⟩

/-- C3 (as stated, refuted): in `formOpenApp`, authenticated with the wallet `0x4`,
`registerProduct()` with the form `Widget` / `A widget` sets its timer; the user logs out
before the timer fires, two seconds later, and the product it settles to has an `owner` whose
value is `undefined`, not `0x4`: line 1132 reads the wallet when the timer fires. -/
theorem registerProduct_owner_lost :
    formOpenApp.state.isAuthenticated = true ∧
    formOpenApp.state.wallet = some ⟨lit "0x4", lit "zkLogin", true⟩ ∧
    widgetForm.name ≠ [] ∧ widgetForm.description ≠ [] ∧
    (registerProductStart formOpenApp (some widgetForm)).2 = some widgetData ∧
    Sys.run demoNumStr (Sys.start Storage.empty) ownerLostTrace = some ⟨ownerLostApp, []⟩ ∧
    ownerLostApp.state.products.map (·.owner) = [.undefined] ∧
    ownerLostApp.state.products.map (·.owner) ≠ [.address (lit "0x4")] := by
  decide

/-- C3 (amended): in an authenticated state `a` whose wallet has the address `w.address`,
`registerProduct` with a name and a description that are not empty sets its timer and
leaves the state as it was.  When the timer fires, on whatever state `b` the application is
in by then, it settles to a product whose name and description are the ones entered and
whose owner is the address of the wallet of `b`: `w.address` when the wallet of the call is
still the one bound, `undefined` when none is bound; `products` is then the list of `b` with
that one product at its end, one longer.  When the timer fires with nothing in between, the
owner is `w.address` and the product is at the end of the list of `a`. -/
theorem registerProduct_owner_at_settle (a b : App) (w : Wallet) (f : ProductForm)
    (env : RegisterEnv) (_hauth : a.state.isAuthenticated = true)
    (hw : a.state.wallet = some w) (hn : f.name ≠ []) (hd : f.description ≠ []) :
    ∃ pd : ProductData,
      (registerProductStart a (some f)).2 = some pd ∧
      (registerProductStart a (some f)).1.state = a.state ∧
      (newProduct b.state pd env).name = f.name ∧
      (newProduct b.state pd env).description = f.description ∧
      (newProduct b.state pd env).owner
        = (match b.state.wallet with
            | none => .undefined
            | some v => .address v.address) ∧
      (b.state.wallet = some w → (newProduct b.state pd env).owner = .address w.address) ∧
      (b.state.wallet = none → (newProduct b.state pd env).owner = .undefined) ∧
      (registerProductSettle b pd env).state.products
        = b.state.products ++ [newProduct b.state pd env] ∧
      (registerProductSettle b pd env).state.products.length = b.state.products.length + 1 ∧
      (registerProduct a (some f) env).state.products
        = a.state.products ++ [newProduct a.state pd env] ∧
      (newProduct a.state pd env).owner = .address w.address := by
  refine ⟨{ name := f.name, description := f.description, manufacturer := f.manufacturer,
             sku := f.sku, productionDate := f.productionDate,
             price := f.priceParsed.orZero, metadata := f.metadata },
    by rw [registerProductStart_accepts a f hn hd],
    by rw [registerProductStart_accepts a f hn hd]; rfl,
    rfl, rfl, rfl, ?_, ?_, ?_, ?_, ?_, ?_⟩
  · intro hb
    simp [newProduct, hb]
  · intro hb
    simp [newProduct, hb]
  · rw [registerProductSettle_state]
  · rw [registerProductSettle_state]
    simp
  · simp [registerProduct, registerProductStart_accepts a f hn hd,
      registerProductSettle_state]
  · simp [newProduct, hw]

/-- C3 (amended), for the wallet `0x4` and the form `Widget` / `A widget`, with the timer
fired after a logout: the owner is `undefined`, and the product is the one product held. -/
theorem registerProduct_owner_at_settle_witness :
    formOpenApp.state.isAuthenticated = true ∧
    formOpenApp.state.wallet = some ⟨lit "0x4", lit "zkLogin", true⟩ ∧
    (logout registeringApp true true).state.wallet = none ∧
    ∃ pd : ProductData,
      (registerProductStart formOpenApp (some widgetForm)).2 = some pd ∧
      (newProduct (logout registeringApp true true).state pd demoRegisterEnv).owner
        = .undefined ∧
      (registerProductSettle (logout registeringApp true true) pd demoRegisterEnv
        ).state.products.length = (logout registeringApp true true).state.products.length + 1 ∧
      (newProduct formOpenApp.state pd demoRegisterEnv).owner = .address (lit "0x4") :=
  ⟨by decide, by decide, by decide,
    (registerProduct_owner_at_settle formOpenApp (logout registeringApp true true)
      ⟨lit "0x4", lit "zkLogin", true⟩ widgetForm demoRegisterEnv
      (by decide) (by decide) (by decide) (by decide)).imp
      fun _ h => ⟨h.1, h.2.2.2.2.2.2.1 (by decide), h.2.2.2.2.2.2.2.2.1, h.2.2.2.2.2.2.2.2.2.2⟩⟩

/-- C4 (as stated, refuted): after a settled registration in the authenticated state
`formOpenApp`, `notifications` is what it was: nothing is put at its head and its length is
not one more. -/
theorem registerProduct_adds_no_notification_example :
    formOpenApp.state.isAuthenticated = true ∧
    (registerProductStart formOpenApp (some widgetForm)).2 = some widgetData ∧
    (registerProduct formOpenApp (some widgetForm) demoRegisterEnv).state.notifications
      = formOpenApp.state.notifications ∧
    (registerProduct formOpenApp (some widgetForm) demoRegisterEnv).state.notifications.length
      ≠ formOpenApp.state.notifications.length + 1 := by
  decide

/-- C4 (amended): for every state and every form whose name and description are not empty, a
settled `registerProduct` leaves `notifications` as it was; that the product is registered is
told by two toasts of level success, `Product registered successfully!` and then
`QR code generated for product!`, after the toast `Registering product on blockchain...`. -/
theorem registerProduct_reports_by_toast (a : App) (f : ProductForm) (env : RegisterEnv)
    (hn : f.name ≠ []) (hd : f.description ≠ []) :
    (registerProduct a (some f) env).state.notifications = a.state.notifications ∧
    (registerProduct a (some f) env).toasts
      = ⟨lit "QR code generated for product!", .success⟩
        :: ⟨lit "Product registered successfully!", .success⟩
        :: ⟨lit "Registering product on blockchain...", .info⟩ :: a.toasts := by
  constructor
  · simp [registerProduct, registerProductStart_accepts a f hn hd,
      registerProductSettle_state]
  · simp [registerProduct, registerProductStart_accepts a f hn hd,
      registerProductSettle_toasts]

/-- C4 (amended), for the wallet `0x4` and the form `Widget` / `A widget`. -/
theorem registerProduct_reports_by_toast_witness :
    widgetForm.name ≠ [] ∧ widgetForm.description ≠ [] ∧
    (registerProduct formOpenApp (some widgetForm) demoRegisterEnv).state.notifications
      = formOpenApp.state.notifications :=
  ⟨by decide, by decide,
    (registerProduct_reports_by_toast formOpenApp widgetForm demoRegisterEnv
      (by decide) (by decide)).1⟩

/-- C5: for every state and every form whose name or description is empty,
`registerProduct` stops at the validation: it shows the error `Please fill in required
fields`, sets no timer (neither as a function nor as a call in the event loop), creates no
product, and leaves the state (so `products` and `notifications`) and the store as they were. -/
theorem registerProduct_validation (a : App) (f : ProductForm) (env : RegisterEnv)
    (e : Platform) (h : f.name = [] ∨ f.description = []) :
    registerProductStart a (some f)
        = (showToast a (lit "Please fill in required fields") .error, none) ∧
    (runCall (.registerProduct (some f)) e a).2 = none ∧
    (registerProduct a (some f) env).state = a.state ∧
    (registerProduct a (some f) env).state.products = a.state.products ∧
    (registerProduct a (some f) env).state.notifications = a.state.notifications ∧
    (registerProduct a (some f) env).storage = a.storage := by
  have hs : registerProductStart a (some f)
      = (showToast a (lit "Please fill in required fields") .error, none) := by
    rcases h with h | h <;> simp [registerProductStart, h]
  refine ⟨hs, by simp [runCall, hs], ?_, ?_, ?_, ?_⟩ <;> simp [registerProduct, hs]

/-- C5, for a form with a name and no description, in the state `formOpenApp`. -/
theorem registerProduct_validation_witness :
    ({ widgetForm with description := [] } : ProductForm).description = [] ∧
    (registerProduct formOpenApp (some { widgetForm with description := [] })
        demoRegisterEnv).state = formOpenApp.state :=
  ⟨rfl, (registerProduct_validation formOpenApp { widgetForm with description := [] }
      demoRegisterEnv demoPlatform (Or.inr rfl)).2.2.1⟩

/-- C6 (as stated, refuted): two settled registrations in the state `formOpenApp` whose id
draws are both `i` (`Math.random()` yields 0.5 in both callbacks) leave two products with
the one id `prod_i` in `products`. -/
theorem registerProduct_ids_collide :
    (settleAll formOpenApp [(widgetData, demoRegisterEnv), (gadgetData, demoRegisterEnv)]
        ).state.products.map (·.id) = [lit "prod_i", lit "prod_i"] ∧
    ¬ ((settleAll formOpenApp [(widgetData, demoRegisterEnv), (gadgetData, demoRegisterEnv)]
        ).state.products.map (·.id)).Nodup := by
  decide

/-- C6 (amended): for every sequence of settled `registerProduct` calls, from a state whose
product ids are pairwise distinct, the ids of the products held in `products` are pairwise
distinct provided the values drawn for the ids (`Math.random().toString(36).substr(2, 9)`)
are pairwise distinct and none of them gives an id that is already held.  The id of each new
product is `prod_` followed by its draw, and the code compares it with nothing. -/
theorem registerProduct_ids_distinct (a : App) (calls : List (ProductData × RegisterEnv))
    (hheld : (a.state.products.map (·.id)).Nodup)
    (hdraws : (calls.map (fun c => c.2.rand36)).Nodup)
    (hfresh : ∀ c ∈ calls, lit "prod_" ++ c.2.rand36 ∉ a.state.products.map (·.id)) :
    (settleAll a calls).state.products.map (·.id)
        = a.state.products.map (·.id) ++ calls.map (fun c => lit "prod_" ++ c.2.rand36) ∧
    ((settleAll a calls).state.products.map (·.id)).Nodup := by
  refine ⟨settleAll_ids calls a, ?_⟩
  rw [settleAll_ids]
  have hinj : Function.Injective (fun r : JsString => lit "prod_" ++ r) :=
    fun x y hxy => List.append_cancel_left hxy
  have hnew : (calls.map (fun c => lit "prod_" ++ c.2.rand36)).Nodup := by
    have := hdraws.map hinj
    simpa [List.map_map, Function.comp_def] using this
  refine List.Nodup.append hheld hnew ?_
  intro x hx hx'
  rcases List.mem_map.mp hx' with ⟨c, hc, rfl⟩
  exact hfresh c hc hx

/-- C6 (amended), for two registrations in the state `formOpenApp` that draw `i` and `9`. -/
theorem registerProduct_ids_distinct_witness :
    ((settleAll formOpenApp [(widgetData, demoRegisterEnv), (gadgetData, otherRegisterEnv)]
        ).state.products.map (·.id)).Nodup :=
  (registerProduct_ids_distinct formOpenApp
    [(widgetData, demoRegisterEnv), (gadgetData, otherRegisterEnv)]
    (by decide) (by decide) (by decide)).2

/-! ## Payments -/

/-- C7: for every state, `sendPayment` with no recipient (an empty one, or no control to read
it from) or with an amount that is not a number greater than zero (`NaN`, zero, a negative
number) stops at the validation: it shows the error `Please enter valid amount and recipient`,
sets no timer (neither as a function nor as a call in the event loop), and leaves the whole
state (so `balances` and `notifications`) and the store as they were. -/
theorem sendPayment_validation (numStr : JsNum → JsString) (a : App) (i : SendInput)
    (env : SendEnv) (e : Platform)
    (h : i.recipient = none ∨ i.recipient = some [] ∨ i.amount.gtZero = false) :
    sendPaymentStart a i
        = (showToast a (lit "Please enter valid amount and recipient") .error, none) ∧
    (runCall (.sendPayment i) e a).2 = none ∧
    (sendPayment numStr a i env).state = a.state ∧
    (sendPayment numStr a i env).state.balances = a.state.balances ∧
    (sendPayment numStr a i env).state.notifications = a.state.notifications ∧
    (sendPayment numStr a i env).storage = a.storage := by
  have hs := sendPaymentStart_rejects a i (by
    rcases h with h | h | h
    · left; rw [h]; rfl
    · left; rw [h]; rfl
    · right; exact h)
  refine ⟨hs, by simp [runCall, hs], ?_, ?_, ?_, ?_⟩ <;> simp [sendPayment, hs]

/-- C7, for the two scenarios `sendPayment("", 5, "SUI")` and `sendPayment("0xdef", -1, "SUI")`
in the state `sendOpenApp`. -/
theorem sendPayment_validation_witness :
    (noRecipientSend.recipient = some [] ∧
      (sendPayment demoNumStr sendOpenApp noRecipientSend demoSendEnv).state
        = sendOpenApp.state) ∧
    (({ demoSend with amount := .fin (-1) } : SendInput).amount.gtZero = false ∧
      (sendPayment demoNumStr sendOpenApp { demoSend with amount := .fin (-1) }
        demoSendEnv).state = sendOpenApp.state) :=
  ⟨⟨rfl, (sendPayment_validation demoNumStr sendOpenApp noRecipientSend demoSendEnv
      demoPlatform (Or.inr (Or.inl rfl))).2.2.1⟩,
   ⟨by decide, (sendPayment_validation demoNumStr sendOpenApp
      { demoSend with amount := .fin (-1) } demoSendEnv demoPlatform
      (Or.inr (Or.inr (by decide)))).2.2.1⟩⟩

/-- C8 (as stated, refuted): the program reaches a state in which nobody is authenticated
and the send form is in the document (connect, open the form, log out); there
`sendPayment("0xdef", 5, "SUI")` is not rejected: a timer is set and, when it fires, one
notification is added. -/
theorem sendPayment_unauthenticated_not_rejected :
    Sys.run demoNumStr (Sys.start Storage.empty) sendLeftTrace = some ⟨sendLeftApp, []⟩ ∧
    sendLeftApp.state.isAuthenticated = false ∧
    sendLeftApp.modal = some .sendModal ∧
    (sendPaymentStart sendLeftApp demoSend).2 = some ⟨lit "0xdef", .fin 5, some (lit "SUI")⟩ ∧
    (sendPayment demoNumStr sendLeftApp demoSend demoSendEnv).state.notifications.length
      = sendLeftApp.state.notifications.length + 1 := by
  decide

/-- C8 (amended): in a state that is not authenticated the check is made by `showSendModal`,
which shows the warning `Please connect wallet first`, opens no form and leaves state and
store alone.  `sendPayment` makes no check of its own: with a recipient that is not empty and
an amount greater than zero it sets its timer and settles as it does when authenticated,
putting one notification at the head of `notifications`. -/
theorem sendPayment_gate (numStr : JsNum → JsString) (a : App)
    (h : a.state.isAuthenticated = false) :
    showSendModal a = showToast a (lit "Please connect wallet first") .warning ∧
    (showSendModal a).modal = a.modal ∧
    (showSendModal a).state = a.state ∧
    (showSendModal a).storage = a.storage ∧
    (∀ (r : JsString) (amount : JsNum) (token : Option JsString) (env : SendEnv),
      r ≠ [] → amount.gtZero = true →
        (sendPaymentStart a ⟨some r, amount, token⟩).2 = some ⟨r, amount, token⟩ ∧
        ∃ n : Notification,
          (sendPayment numStr a ⟨some r, amount, token⟩ env).state.notifications
            = n :: a.state.notifications) := by
  have hm : showSendModal a = showToast a (lit "Please connect wallet first") .warning := by
    simp [showSendModal, h]
  refine ⟨hm, by rw [hm]; rfl, by rw [hm]; rfl, by rw [hm]; rfl, ?_⟩
  intro r amount token env hr ha
  constructor
  · rw [sendPaymentStart_accepts a r amount token hr ha]
  · simp only [sendPayment, sendPaymentStart_accepts a r amount token hr ha,
      sendPaymentSettle_state, showToast_state]
    exact ⟨_, rfl⟩

/-- C8 (amended), in the state left by a logout with the send form still in the document. -/
theorem sendPayment_gate_witness :
    sendLeftApp.state.isAuthenticated = false ∧
    showSendModal sendLeftApp
      = showToast sendLeftApp (lit "Please connect wallet first") .warning ∧
    (sendPaymentStart sendLeftApp demoSend).2 = some ⟨lit "0xdef", .fin 5, some (lit "SUI")⟩ :=
  ⟨by decide, (sendPayment_gate demoNumStr sendLeftApp (by decide)).1,
    ((sendPayment_gate demoNumStr sendLeftApp (by decide)).2.2.2.2 (lit "0xdef") (.fin 5)
      (some (lit "SUI")) demoSendEnv (by decide) (by decide)).1⟩

/-- C9: for every state, recipient, amount and token, `sendPayment` leaves `balances` as it
was, whether it is rejected or settles, and the state after it differs from the state before
in `notifications` at most; the same holds of the timer callback alone, on whatever state it
runs. -/
theorem sendPayment_frame (numStr : JsNum → JsString) (a : App) (i : SendInput)
    (p : SendPending) (env : SendEnv) :
    (sendPayment numStr a i env).state.balances = a.state.balances ∧
    (sendPayment numStr a i env).state
      = { a.state with notifications := (sendPayment numStr a i env).state.notifications } ∧
    (sendPaymentSettle numStr a p env).state.balances = a.state.balances ∧
    (sendPaymentSettle numStr a p env).state
      = { a.state with
          notifications := (sendPaymentSettle numStr a p env).state.notifications } := by
  have hsettle : ∀ (b : App) (q : SendPending),
      (sendPaymentSettle numStr b q env).state
        = { b.state with
            notifications := (sendPaymentSettle numStr b q env).state.notifications } := by
    intro b q
    rw [sendPaymentSettle_state]
  have hcall : (sendPayment numStr a i env).state
      = { a.state with notifications := (sendPayment numStr a i env).state.notifications } := by
    by_cases hc : (!truthyStr i.recipient || !i.amount.truthy || i.amount.leZero) = true
    · have hrej : sendPayment numStr a i env
          = showToast a (lit "Please enter valid amount and recipient") .error := by
        simp [sendPayment, sendPaymentStart, hc]
      rw [hrej]
      rfl
    · have hacc : sendPayment numStr a i env
          = sendPaymentSettle numStr (showToast a (lit "Sending payment...") .info)
              ⟨i.recipient.getD [], i.amount, i.token⟩ env := by
        simp [sendPayment, sendPaymentStart, hc]
      rw [hacc, sendPaymentSettle_state]
      rfl
  refine ⟨?_, hcall, ?_, hsettle a p⟩
  · rw [hcall]
  · rw [hsettle]

/-- C10: for every state, every recipient that is not empty, every amount greater than zero
and every token, a settled `sendPayment` puts exactly one notification at the head of
`notifications`: unread, of type `transaction`, titled `Payment Sent`, with the message
`Sent <amount> <token> to <first 12 code units of the recipient>...`, which contains the
amount, the token and the first 12 code units of the recipient; the list is one longer. -/
theorem sendPayment_notification (numStr : JsNum → JsString) (a : App) (r : JsString)
    (amount : JsNum) (token : Option JsString) (env : SendEnv)
    (hr : r ≠ []) (ha : amount.gtZero = true) :
    (sendPaymentStart a ⟨some r, amount, token⟩).2 = some ⟨r, amount, token⟩ ∧
    (sendPayment numStr a ⟨some r, amount, token⟩ env).state.notifications
      = { type := lit "transaction", title := lit "Payment Sent",
          message := lit "Sent " ++ numStr amount ++ lit " " ++ tmplStr token ++ lit " to "
            ++ r.take 12 ++ lit "...",
          timestamp := env.stamp, id := env.now, read := false } :: a.state.notifications ∧
    numStr amount <:+: lit "Sent " ++ numStr amount ++ lit " " ++ tmplStr token ++ lit " to "
      ++ r.take 12 ++ lit "..." ∧
    tmplStr token <:+: lit "Sent " ++ numStr amount ++ lit " " ++ tmplStr token ++ lit " to "
      ++ r.take 12 ++ lit "..." ∧
    r.take 12 <:+: lit "Sent " ++ numStr amount ++ lit " " ++ tmplStr token ++ lit " to "
      ++ r.take 12 ++ lit "..." ∧
    (sendPayment numStr a ⟨some r, amount, token⟩ env).state.notifications.length
      = a.state.notifications.length + 1 := by
  have hs := sendPaymentStart_accepts a r amount token hr ha
  have hn : (sendPayment numStr a ⟨some r, amount, token⟩ env).state.notifications
      = { type := lit "transaction", title := lit "Payment Sent",
          message := lit "Sent " ++ numStr amount ++ lit " " ++ tmplStr token ++ lit " to "
            ++ r.take 12 ++ lit "...",
          timestamp := env.stamp, id := env.now, read := false }
        :: a.state.notifications := by
    simp only [sendPayment, hs, sendPaymentSettle_state, showToast_state, sentMessage]
  refine ⟨by rw [hs], hn, ?_, ?_, ?_, by rw [hn]; rfl⟩
  · exact ⟨lit "Sent ", lit " " ++ tmplStr token ++ lit " to " ++ r.take 12 ++ lit "...",
      by simp [List.append_assoc]⟩
  · exact ⟨lit "Sent " ++ numStr amount ++ lit " ", lit " to " ++ r.take 12 ++ lit "...",
      by simp [List.append_assoc]⟩
  · exact ⟨lit "Sent " ++ numStr amount ++ lit " " ++ tmplStr token ++ lit " to ", lit "...",
      by simp [List.append_assoc]⟩

/-- C10, for the payment of 5 SUI to `0xdef` in the state `sendOpenApp`. -/
theorem sendPayment_notification_witness :
    (lit "0xdef" ≠ [] ∧ JsNum.gtZero (.fin 5) = true) ∧
    (sendPayment demoNumStr sendOpenApp demoSend demoSendEnv).state.notifications
      = { type := lit "transaction", title := lit "Payment Sent",
          message := lit "Sent 5 SUI to 0xdef...",
          timestamp := 1700000000000, id := 1700000000000, read := false }
        :: sendOpenApp.state.notifications :=
  ⟨⟨by decide, by decide⟩,
    (sendPayment_notification demoNumStr sendOpenApp (lit "0xdef") (.fin 5) (some (lit "SUI"))
      demoSendEnv (by decide) (by decide)).2.1⟩

/-! ## The session invariant is kept by every event -/

theorem good_of_frame {a b : App} (h : Good a) (hs : b.state = a.state)
    (hst : b.storage = a.storage) : Good b := by
  unfold Good at *
  rw [hs, hst]
  exact h

theorem good_showToast {a : App} (h : Good a) (m : JsString) (l : Level) :
    Good (showToast a m l) :=
  good_of_frame h rfl rfl

theorem good_hideModal {a : App} (h : Good a) (m : Modal) : Good (hideModal a m) :=
  good_of_frame h (by simp) (by simp)

theorem good_loadPage {a : App} (h : Good a) (page : JsString) : Good (loadPage a page) :=
  good_of_frame h (by simp) (by simp)

/-- Saving a consistent state keeps the store the text of a consistent state. -/
theorem good_saveState {a b : App} (h : Good a) (hst : b.storage = a.storage)
    (hc : Consistent b.state) (ok : Bool) : Good (saveState ok b) := by
  unfold saveState
  cases ok
  · exact ⟨hc, hst ▸ h.2.1, hst ▸ h.2.2⟩
  · refine ⟨hc, hst ▸ h.2.1, ?_⟩
    intro snap hsnap
    simp only [if_true, Option.some.injEq, Stored.json.injEq] at hsnap
    exact ⟨b.state, hsnap.symm, hc⟩

theorem good_connectSuiWalletSettle {a : App} (h : Good a) (env : ConnectEnv) :
    Good (connectSuiWalletSettle a env) := by
  unfold connectSuiWalletSettle
  apply good_loadPage
  apply good_showToast
  apply good_hideModal
  refine good_saveState h ?_ ?_ _ <;> rfl

theorem good_sendMagicLinkSettle {a : App} (h : Good a) (email : JsString) (env : ConnectEnv) :
    Good (sendMagicLinkSettle a email env) := by
  unfold sendMagicLinkSettle
  apply good_loadPage
  apply good_showToast
  apply good_hideModal
  refine good_saveState h ?_ ?_ _ <;> rfl

theorem good_importWalletSettle {a : App} (h : Good a) (env : ConnectEnv) :
    Good (importWalletSettle a env) := by
  unfold importWalletSettle
  apply good_loadPage
  apply good_showToast
  apply good_hideModal
  refine good_saveState h ?_ ?_ _ <;> rfl

theorem good_createNewWalletSettle {a : App} (h : Good a) (env : ConnectEnv) :
    Good (createNewWalletSettle a env) := by
  unfold createNewWalletSettle
  apply good_loadPage
  apply good_showToast
  refine good_saveState h ?_ ?_ _ <;> rfl

theorem good_connectSuiWalletExtension {a : App} (h : Good a) (ext : Option ExtensionReply)
    (ok : Bool) : Good (connectSuiWalletExtension a ext ok) := by
  unfold connectSuiWalletExtension
  split
  · exact good_showToast h _ _
  · exact good_showToast h _ _
  · exact h
  · exact h
  · apply good_loadPage
    apply good_showToast
    apply good_hideModal
    refine good_saveState h ?_ ?_ _ <;> rfl

theorem good_logout {a : App} (h : Good a) (confirmed ok : Bool) :
    Good (logout a confirmed ok) := by
  unfold logout
  split
  · apply good_loadPage
    apply good_showToast
    refine good_saveState h ?_ ?_ _ <;> rfl
  · exact h

theorem good_registerProductSettle {a : App} (h : Good a) (pd : ProductData)
    (env : RegisterEnv) : Good (registerProductSettle a pd env) := by
  have hsave : Good (saveState env.storageOk
      { a with state := { a.state with
          products := a.state.products ++ [newProduct a.state pd env] } }) := by
    refine good_saveState h ?_ ?_ _
    · rfl
    · exact h.1
  unfold registerProductSettle
  split
  · apply good_loadPage
    apply good_showToast
    apply good_showToast
    apply good_hideModal
    exact hsave
  · apply good_showToast
    apply good_showToast
    apply good_hideModal
    exact hsave

theorem good_addNotification {a : App} (h : Good a) (n : NotificationData) (now : Int)
    (ok : Bool) : Good (addNotification a n now ok) := by
  unfold addNotification
  refine good_saveState h ?_ ?_ _
  · rfl
  · exact h.1

theorem good_sendPaymentSettle (numStr : JsNum → JsString) {a : App} (h : Good a)
    (p : SendPending) (env : SendEnv) : Good (sendPaymentSettle numStr a p env) := by
  unfold sendPaymentSettle
  apply good_addNotification
  apply good_showToast
  apply good_hideModal
  exact h

theorem good_saveSettings {a : App} (h : Good a) (network currency : Option JsString)
    (ok : Bool) : Good (saveSettings a network currency ok) := by
  unfold saveSettings
  apply good_showToast
  refine good_saveState h ?_ ?_ _
  · rfl
  have hc := h.1
  unfold Consistent walletConnected at *
  dsimp only
  split <;> split <;> exact hc

theorem good_toggleTheme {a : App} (h : Good a) (current : Option JsString) (ok : Bool) :
    Good (toggleTheme a current ok) := by
  unfold toggleTheme
  cases ok
  · exact h
  · exact ⟨h.1, h.2.1, h.2.2⟩

theorem good_updateBalancesResume {a : App} (h : Good a) (perBillion : JsNum → JsNum)
    (fetched : Option (List CoinBalance)) (ok : Bool) :
    Good (updateBalancesResume perBillion a fetched ok) := by
  unfold updateBalancesResume
  split
  · exact h
  · dsimp only
    refine good_saveState h ?_ ?_ _
    · rfl
    · exact h.1

theorem good_initWallet {a : App} (h : Good a) : Good (initWallet a) := by
  unfold initWallet
  rw [h.2.1]
  exact h

/-- A page load over a store that holds the text of a consistent state, and no wallet,
starts in a consistent state. -/
theorem good_boot (storage : Storage) (hw : storage.thalexa_wallet = none)
    (hs : ∀ snap, storage.thalexa_state = some (.json snap) →
      ∃ st, snap = stringify st ∧ Consistent st) : Good (boot storage) := by
  have hload : Good (loadState
      { state := defaultState, storage := storage, toasts := [], page := none,
        modal := none, modalOpen := false }) := by
    unfold loadState
    split
    · rename_i snap hsnap
      obtain ⟨st, rfl, hc⟩ := hs snap hsnap
      exact ⟨hc, hw, hs⟩
    · exact ⟨rfl, hw, hs⟩
  exact ⟨hload.1, hload.2.1, hload.2.2⟩

theorem good_runCall {a : App} (h : Good a) (c : Call) (e : Platform) :
    Good (runCall c e a).1 := by
  cases c with
  | connectWallet => exact good_of_frame h rfl rfl
  | showProductModal =>
    simp only [runCall, showProductModal]
    split
    · exact good_of_frame (good_showToast h (lit "Please connect wallet first") .warning)
        rfl rfl
    · exact good_of_frame h rfl rfl
  | showSendModal =>
    simp only [runCall, showSendModal]
    split
    · exact good_showToast h _ _
    · exact good_of_frame h rfl rfl
  | connectWithEmail => exact good_of_frame h rfl rfl
  | connectSuiWallet => exact good_showToast h _ _
  | connectSuiWalletExtension installed =>
    simp only [runCall]
    split
    · exact h
    · exact good_connectSuiWalletExtension h _ _
  | sendMagicLink email =>
    simp only [runCall, sendMagicLinkStart]
    split <;> exact good_showToast h _ _
  | registerProduct form =>
    simp only [runCall, registerProductStart]
    split
    · exact good_showToast h _ _
    · split <;> exact good_showToast h _ _
  | sendPayment i =>
    simp only [runCall, sendPaymentStart]
    split <;> exact good_showToast h _ _
  | verifyProduct entered =>
    simp only [runCall, verifyProductStart]
    split <;> exact good_showToast h _ _
  | importWallet seed =>
    simp only [runCall, importWalletStart]
    split <;> exact good_showToast h _ _
  | createNewWallet => exact good_showToast h _ _
  | logout confirmed => exact good_logout h _ _
  | saveSettings network currency => exact good_saveSettings h _ _ _
  | toggleTheme current => exact good_toggleTheme h _ _
  | loadPage page => exact good_loadPage h _
  | updateBalances => exact h

theorem good_fire (numStr : JsNum → JsString) {a : App} (h : Good a) (t : Timer)
    (e : Platform) : Good (fire numStr t e a) := by
  cases t with
  | connectSuiWallet => exact good_connectSuiWalletSettle h _
  | sendMagicLink email => exact good_sendMagicLinkSettle h _ _
  | registerProduct productData => exact good_registerProductSettle h _ _
  | sendPayment p => exact good_sendPaymentSettle numStr h _ _
  | verifyProduct productId => exact good_showToast h _ _
  | importWallet => exact good_importWalletSettle h _
  | createNewWallet => exact good_createNewWalletSettle h _
  | extensionRequest => exact good_connectSuiWalletExtension h _ _
  | balancesFetch => exact good_updateBalancesResume h _ _ _
  | initRest => exact good_loadPage (good_initWallet h) _

theorem good_step (numStr : JsNum → JsString) {s s' : Sys} (h : Good s.app) (ev : Event)
    (hstep : Sys.step numStr s ev = some s') : Good s'.app := by
  cases ev with
  | call c e =>
    simp only [Sys.step, Option.some.injEq] at hstep
    subst hstep
    exact good_runCall h c e
  | fire t e =>
    simp only [Sys.step] at hstep
    split at hstep
    · simp only [Option.some.injEq] at hstep
      subst hstep
      exact good_fire numStr h t e
    · exact absurd hstep (by simp)
  | reload =>
    simp only [Sys.step, Option.some.injEq] at hstep
    subst hstep
    exact good_boot _ h.2.1 h.2.2
  | clearSessions confirmed =>
    simp only [Sys.step, Option.some.injEq] at hstep
    subst hstep
    split
    · exact good_boot _ rfl (fun snap hsnap => by simp [Storage.empty] at hsnap)
    · exact h

theorem good_of_reachable (numStr : JsNum → JsString) {s : Sys}
    (h : Reachable numStr s) : Good s.app := by
  induction h with
  | start => exact good_boot _ rfl (fun snap hsnap => by simp [Storage.empty] at hsnap)
  | step ev _ hstep ih => exact good_step numStr ih ev hstep

/-- Whatever a sequence of events leads to from a reachable state is reachable. -/
theorem reachable_run (numStr : JsNum → JsString) (evs : List Event) {s s' : Sys}
    (h : Reachable numStr s) (hrun : Sys.run numStr s evs = some s') : Reachable numStr s' := by
  induction evs generalizing s with
  | nil =>
    simp only [Sys.run, Option.some.injEq] at hrun
    exact hrun ▸ h
  | cons ev rest ih =>
    simp only [Sys.run] at hrun
    cases hstep : Sys.step numStr s ev with
    | none => simp [hstep] at hrun
    | some s1 =>
      rw [hstep] at hrun
      exact ih (Reachable.step ev h hstep) hrun

/-! ## Sessions -/

/-- C1: in every state the program reaches from its first start by calls of its methods, by
the firing of the callbacks they leave waiting, by reloads over what it stored itself and by
`clearSessions`, `isAuthenticated` is `wallet != null && wallet.connected`: it is true exactly
when there is a wallet and the wallet is connected. -/
theorem isAuthenticated_iff_wallet_connected (numStr : JsNum → JsString) (s : Sys)
    (h : Reachable numStr s) :
    s.app.state.isAuthenticated = walletConnected s.app.state ∧
    (s.app.state.isAuthenticated = true ↔
      ∃ w : Wallet, s.app.state.wallet = some w ∧ w.connected = true) := by
  have hc : s.app.state.isAuthenticated = walletConnected s.app.state :=
    (good_of_reachable numStr h).1
  refine ⟨hc, ?_⟩
  rw [hc]
  unfold walletConnected
  cases s.app.state.wallet with
  | none => simp
  | some w => simp

/-- C1, in the state reached by a first start, `connectSuiWallet()` and its timer: the wallet
is bound and connected, and `isAuthenticated` is true. -/
theorem isAuthenticated_iff_wallet_connected_witness :
    Reachable demoNumStr ⟨connectedApp, []⟩ ∧
    connectedApp.state.isAuthenticated = true ∧
    connectedApp.state.isAuthenticated = walletConnected connectedApp.state :=
  have hr : Reachable demoNumStr ⟨connectedApp, []⟩ :=
    reachable_run demoNumStr connectTrace Reachable.start (by decide)
  ⟨hr, by decide, (isAuthenticated_iff_wallet_connected demoNumStr ⟨connectedApp, []⟩ hr).1⟩

/-- C11: for every state, a confirmed `logout()` leaves a state with `isAuthenticated` false,
no wallet and no user, in which `products` is the list it was, and every other field of the
state is what it was as well. -/
theorem logout_keeps_products (a : App) (ok : Bool) :
    (logout a true ok).state.isAuthenticated = false ∧
    (logout a true ok).state.wallet = none ∧
    (logout a true ok).state.user = none ∧
    (logout a true ok).state.products = a.state.products ∧
    (logout a true ok).state
      = { a.state with isAuthenticated := false, user := none, wallet := none } := by
  simp [logout]

/-! ## Router -/

/-- C12: for every state with `isAuthenticated` false, `loadPage('dashboard')` does not
render the dashboard: the page rendered at the end is the home page, exactly one message is
shown, the warning `Please connect wallet first`, and state and store are what they were. -/
theorem loadPage_dashboard_guard (a : App) (h : a.state.isAuthenticated = false) :
    (loadPage a (lit "dashboard")).page = some .home ∧
    (loadPage a (lit "dashboard")).page ≠ some .dashboard ∧
    (loadPage a (lit "dashboard")).toasts
      = ⟨lit "Please connect wallet first", .warning⟩ :: a.toasts ∧
    (loadPage a (lit "dashboard")).state = a.state ∧
    (loadPage a (lit "dashboard")).storage = a.storage := by
  have hne : lit "dashboard" ≠ lit "home" := by decide
  have hl : loadPage a (lit "dashboard")
      = { showToast a (lit "Please connect wallet first") .warning with page := some .home } := by
    simp [loadPage, hne, h]
  rw [hl]
  exact ⟨rfl, by simp, rfl, rfl, rfl⟩

/-- C12, in the state of a first start. -/
theorem loadPage_dashboard_guard_witness :
    startedApp.state.isAuthenticated = false ∧
    (loadPage startedApp (lit "dashboard")).page = some .home ∧
    (loadPage startedApp (lit "dashboard")).state = startedApp.state :=
  ⟨by decide, (loadPage_dashboard_guard startedApp (by decide)).1,
    (loadPage_dashboard_guard startedApp (by decide)).2.2.2.1⟩

/-! ## Persisted store -/

/-- C13: when what is stored under `thalexa_state` is not JSON (text that `JSON.parse`
rejects, or the empty string), `loadState()` returns with the application as it was; on a
new instance the state is therefore the default state: no user, no wallet, not
authenticated, no balances, no products, no notifications. -/
theorem loadState_corrupt (a : App) (storage : Storage)
    (h : storage.thalexa_state = some .corrupt ∨ storage.thalexa_state = some .blank)
    (ha : a.storage = storage) :
    loadState a = a ∧
    (loadState (newInstance storage)).state = defaultState ∧
    (loadState (newInstance storage)).state.user = none ∧
    (loadState (newInstance storage)).state.wallet = none ∧
    (loadState (newInstance storage)).state.isAuthenticated = false ∧
    (loadState (newInstance storage)).state.balances = [] ∧
    (loadState (newInstance storage)).state.products = [] ∧
    (loadState (newInstance storage)).state.notifications = [] := by
  have h1 : loadState a = a := by
    unfold loadState
    rw [ha]
    rcases h with h | h <;> rw [h]
  have h2 : loadState (newInstance storage) = newInstance storage := by
    unfold loadState
    show (match storage.thalexa_state with
      | some (.json snap) => _
      | _ => newInstance storage) = _
    rcases h with h | h <;> rw [h]
  rw [h2]
  exact ⟨h1, rfl, rfl, rfl, rfl, rfl, rfl, rfl⟩

/-- C13, for a store whose `thalexa_state` is not JSON. -/
theorem loadState_corrupt_witness :
    corruptStorage.thalexa_state = some .corrupt ∧
    (loadState (newInstance corruptStorage)).state = defaultState :=
  ⟨rfl, (loadState_corrupt (newInstance corruptStorage) corruptStorage (Or.inl rfl) rfl).2.1⟩

/-- C15: for every stored state that `JSON.parse` accepts, whatever keys it lacks,
`loadState()` on a new instance yields the state in which each key of the stored state has
the stored value and each key it lacks has the value of the default state. -/
theorem loadState_missing_keys (storage : Storage) (snap : Snapshot)
    (h : storage.thalexa_state = some (.json snap)) :
    (loadState (newInstance storage)).state = merge defaultState snap ∧
    (loadState (newInstance storage)).state.user = snap.user.getD none ∧
    (loadState (newInstance storage)).state.wallet = snap.wallet.getD none ∧
    (loadState (newInstance storage)).state.isAuthenticated
      = snap.isAuthenticated.getD false ∧
    (loadState (newInstance storage)).state.balances = snap.balances.getD [] ∧
    (loadState (newInstance storage)).state.products = snap.products.getD [] ∧
    (loadState (newInstance storage)).state.notifications = snap.notifications.getD [] ∧
    (loadState (newInstance storage)).state.network = snap.network.getD (lit "mainnet") ∧
    (loadState (newInstance storage)).state.theme = snap.theme.getD (lit "dark") ∧
    (loadState (newInstance storage)).state.currency = snap.currency := by
  have hl : (loadState (newInstance storage)).state = merge defaultState snap := by
    unfold loadState
    show (match storage.thalexa_state with
      | some (.json snap) => _
      | _ => newInstance storage).state = _
    rw [h]
    rfl
  rw [hl]
  refine ⟨rfl, rfl, rfl, rfl, rfl, rfl, rfl, rfl, rfl, ?_⟩
  simp only [merge, defaultState]
  cases snap.currency <;> rfl

/-- C15, for a stored state that has the key `network` only. -/
theorem loadState_missing_keys_witness :
    (loadState (newInstance ⟨some (.json networkOnlySnapshot), none, none⟩)).state
      = { defaultState with network := lit "testnet" } :=
  (loadState_missing_keys ⟨some (.json networkOnlySnapshot), none, none⟩ networkOnlySnapshot
    rfl).1.trans (by decide)

/-! ## Notifications -/

/-- C16: for every state and every notification, `addNotification` leaves `notifications`
equal to the new entry followed by the list it was: the entry has the notification's type,
title, message and timestamp, the reading of the clock as its id and `read` false (whatever
id and `read` the notification came with), and the entries held before keep their order and
content. -/
theorem addNotification_prepends (a : App) (n : NotificationData) (m : Notification)
    (now : Int) (ok : Bool) :
    (addNotification a n now ok).state.notifications
      = { type := n.type, title := n.title, message := n.message, timestamp := n.timestamp,
          id := now, read := false } :: a.state.notifications ∧
    ((addNotification a n now ok).state.notifications.head?).map (·.read) = some false ∧
    (addNotification a n now ok).state.notifications.tail = a.state.notifications ∧
    (addNotification a ⟨m.type, m.title, m.message, m.timestamp⟩ now ok).state.notifications
      = { m with id := now, read := false } :: a.state.notifications ∧
    (addNotification a n now ok).state
      = { a.state with notifications := (addNotification a n now ok).state.notifications } := by
  simp [addNotification]

/-! ## Balances -/

/-- C19: for every state, when the fetch of the balances fails (no provider, or a promise
that is rejected), `updateBalances()` returns with the application as it was: the state,
`balances` included, and the store are unchanged; so does the continuation of the `await`
alone, on whatever state it runs. -/
theorem updateBalances_fetch_failure (perBillion : JsNum → JsNum) (a : App) (ok : Bool) :
    updateBalances perBillion a none ok = a ∧
    (updateBalances perBillion a none ok).state = a.state ∧
    (updateBalances perBillion a none ok).state.balances = a.state.balances ∧
    updateBalancesResume perBillion a none ok = a := by
  have h : updateBalances perBillion a none ok = a := by
    unfold updateBalances updateBalancesResume
    split <;> rfl
  rw [h]
  exact ⟨rfl, rfl, rfl, rfl⟩

/-! ## Lemmas on the JSON round trip, the balance loop and the notification ids -/

/-- A list is left alone by a map exactly when each of its elements is. -/
theorem map_eq_self_iff {α : Type} (f : α → α) (l : List α) :
    l.map f = l ↔ ∀ x ∈ l, f x = x := by
  induction l with
  | nil => simp
  | cons x xs ih => simp [ih]

/-- The numeric fields that JSON keeps as they are. -/
theorem numField_json_eq_self (v : NumField) : v.json = v ↔ v.Stable := by
  cases v with
  | null => simp [NumField.json, NumField.Stable]
  | num n => cases n <;> simp [NumField.json, NumField.Stable]

/-- The owners that JSON keeps as they are. -/
theorem owner_json_eq_self (o : Owner) : o.json = o ↔ o ≠ .undefined := by
  cases o <;> simp [Owner.json]

/-- The products that JSON keeps as they are. -/
theorem product_json_eq_self (p : Product) :
    p.json = p ↔ p.price.Stable ∧ p.owner ≠ .undefined := by
  rw [← numField_json_eq_self, ← owner_json_eq_self]
  cases p
  simp [Product.json]

/-- The states that JSON keeps as they are. -/
theorem state_json_eq_self (s : State) : s.json = s ↔ JsonStable s := by
  unfold JsonStable
  have hb : (s.balances.map fun kv => (kv.1, kv.2.json)) = s.balances
      ↔ ∀ kv ∈ s.balances, kv.2.Stable := by
    rw [map_eq_self_iff]
    constructor
    · intro h kv hkv
      have := h kv hkv
      rw [← numField_json_eq_self]
      exact (Prod.mk.injEq _ _ _ _ ▸ this).2
    · intro h kv hkv
      have := (numField_json_eq_self kv.2).mpr (h kv hkv)
      rw [this]
  have hp : s.products.map Product.json = s.products
      ↔ ∀ p ∈ s.products, p.price.Stable ∧ p.owner ≠ .undefined := by
    rw [map_eq_self_iff]
    exact forall_congr' fun p => imp_congr_right fun _ => product_json_eq_self p
  rw [← hb, ← hp]
  cases s
  simp [State.json]

/-- Saving and loading on a new instance yields the state as JSON keeps it. -/
theorem saveThenLoad_eq_json (a : App) : saveThenLoad true a = a.state.json := by
  unfold saveThenLoad saveState loadState newInstance
  simp only [if_true]
  cases hs : a.state with
  | mk user wallet isAuthenticated balances products notifications network theme currency =>
    cases currency <;> rfl

/-- A list that is not empty has a last element. -/
theorem getLast?_cons_some {α : Type} (x : α) (xs : List α) :
    ∃ y, (x :: xs).getLast? = some y := by
  cases h : (x :: xs).getLast? with
  | none => simp at h
  | some y => exact ⟨y, rfl⟩

/-- The last entry of SUI of a list with one more entry in front. -/
theorem lastSuiEntry_cons (b : CoinBalance) (rest : List CoinBalance) :
    lastSuiEntry (b :: rest)
      = match lastSuiEntry rest with
        | some t => some t
        | none => if b.coinType = lit "0x2::sui::SUI" then some b.totalBalance else none := by
  unfold lastSuiEntry
  by_cases hb : b.coinType = lit "0x2::sui::SUI"
  · cases hf : rest.filter (fun b => b.coinType = lit "0x2::sui::SUI") with
    | nil => simp [List.filter_cons, hb, hf]
    | cons x xs =>
      obtain ⟨y, hy⟩ := getLast?_cons_some x xs
      simp [List.filter_cons, hb, hf, hy]
  · cases hf : rest.filter (fun b => b.coinType = lit "0x2::sui::SUI") with
    | nil => simp [List.filter_cons, hb, hf]
    | cons x xs =>
      obtain ⟨y, hy⟩ := getLast?_cons_some x xs
      simp [List.filter_cons, hb, hf, hy]

/-- The loop of lines 1650-1654, from no balance or from a balance of SUI alone, ends with
what the last entry of SUI in the list gives. -/
theorem fill_eq_spec (perBillion : JsNum → JsNum) (l : List CoinBalance)
    (acc : List (JsString × NumField))
    (hacc : acc = [] ∨ ∃ v, acc = [(lit "SUI", v)]) :
    l.foldl
      (fun acc balance =>
        if balance.coinType = lit "0x2::sui::SUI" then
          setKey (lit "SUI") (.num (perBillion balance.totalBalance)) acc
        else acc)
      acc
      = match lastSuiEntry l with
        | none => acc
        | some t => [(lit "SUI", .num (perBillion t))] := by
  induction l generalizing acc with
  | nil => rfl
  | cons b rest ih =>
    rw [List.foldl_cons, lastSuiEntry_cons]
    by_cases hb : b.coinType = lit "0x2::sui::SUI"
    · have hset : setKey (lit "SUI") (.num (perBillion b.totalBalance)) acc
          = [(lit "SUI", .num (perBillion b.totalBalance))] := by
        rcases hacc with h | ⟨v, h⟩ <;> subst h <;> simp [setKey]
      simp only [hb, if_true, hset]
      rw [ih _ (Or.inr ⟨_, rfl⟩)]
      cases lastSuiEntry rest <;> rfl
    · simp only [hb, if_false]
      rw [ih _ hacc]
      cases lastSuiEntry rest <;> rfl

/-- The ids after a sequence of `addNotification` calls: the readings of the clock, the
latest first, before the ids held at the start. -/
theorem notifyAll_ids (calls : List (NotificationData × Int × Bool)) (a : App) :
    (notifyAll a calls).state.notifications.map (·.id)
      = (calls.map (·.2.1)).reverse ++ a.state.notifications.map (·.id) := by
  induction calls generalizing a with
  | nil => simp [notifyAll]
  | cons c rest ih =>
    rw [notifyAll, ih]
    simp [addNotification]

/-! ## Persisted store: the round trip -/

/-- C14 (as stated, refuted): the program reaches two states that saving and loading do not
give back.  In `ownerLostApp` (a logout while the timer of `registerProduct()` is waiting) the
product has an `owner` whose value is `undefined`, and the product loaded has no `owner` key.
In `nanBalanceApp` (a fetched entry of SUI whose `totalBalance` is not a number) `balances.SUI`
is `NaN`, and the value loaded is `null`. -/
theorem saveThenLoad_changes_state :
    Sys.run demoNumStr (Sys.start Storage.empty) ownerLostTrace = some ⟨ownerLostApp, []⟩ ∧
    ownerLostApp.state.products.map (·.owner) = [.undefined] ∧
    (saveThenLoad true ownerLostApp).products.map (·.owner) = [.absent] ∧
    saveThenLoad true ownerLostApp ≠ ownerLostApp.state ∧
    Sys.run demoNumStr (Sys.start Storage.empty) nanBalanceTrace = some ⟨nanBalanceApp, []⟩ ∧
    nanBalanceApp.state.balances = [(lit "SUI", .num .nan)] ∧
    (saveThenLoad true nanBalanceApp).balances = [(lit "SUI", .null)] ∧
    saveThenLoad true nanBalanceApp ≠ nanBalanceApp.state := by
  decide

/-- C14 (amended): for every state, reachable or not, `saveState()` whose write succeeds
followed by `loadState()` on a new instance yields the state as JSON keeps it: the same
state, but for each number that is not finite, which is `null`, and each product `owner`
whose value is `undefined`, which is left out.  The state loaded is therefore equal to the
state saved exactly when every balance and every price is finite or `null` and no product
has an `owner` whose value is `undefined`.  When the write fails, what is loaded is what the
store held before. -/
theorem saveThenLoad_json (a : App) :
    saveThenLoad true a = a.state.json ∧
    (saveThenLoad true a = a.state ↔ JsonStable a.state) ∧
    saveThenLoad false a = (loadState (newInstance a.storage)).state := by
  refine ⟨saveThenLoad_eq_json a, ?_, rfl⟩
  rw [saveThenLoad_eq_json, state_json_eq_self]

/-! ## Notification ids -/

/-- C17 (as stated, refuted): the program reaches a state that holds two notifications with
one id: two `sendPayment()` calls whose timers fire within the same millisecond; the two
readings of the clock, equal, are a sequence that does not decrease.  The same holds of two
`addNotification` calls with one reading. -/
theorem addNotification_ids_collide :
    Sys.run demoNumStr (Sys.start Storage.empty) twoPaymentsTrace = some ⟨twoPaymentsApp, []⟩ ∧
    twoPaymentsApp.state.notifications.map (·.id) = [1700000000000, 1700000000000] ∧
    ¬ (twoPaymentsApp.state.notifications.map (·.id)).Nodup ∧
    ¬ ((notifyAll sendOpenApp
        [(demoNotification, 1700000000000, true), (demoNotification, 1700000000000, true)]
        ).state.notifications.map (·.id)).Nodup := by
  decide

/-- C17 (amended): for every sequence of `addNotification` calls, from a state whose
notification ids are pairwise distinct, the ids of the notifications held are pairwise
distinct provided the readings of the clock increase strictly from one call to the next and
each is greater than every id already held.  The id of a new notification is the reading of
the clock, and the code compares it with nothing. -/
theorem addNotification_ids_distinct (a : App) (calls : List (NotificationData × Int × Bool))
    (hheld : (a.state.notifications.map (·.id)).Nodup)
    (hclock : (calls.map (·.2.1)).Pairwise (· < ·))
    (hlater : ∀ c ∈ calls, ∀ i ∈ a.state.notifications.map (·.id), i < c.2.1) :
    (notifyAll a calls).state.notifications.map (·.id)
        = (calls.map (·.2.1)).reverse ++ a.state.notifications.map (·.id) ∧
    ((notifyAll a calls).state.notifications.map (·.id)).Nodup := by
  refine ⟨notifyAll_ids calls a, ?_⟩
  rw [notifyAll_ids]
  have hnew : ((calls.map (·.2.1)).reverse).Nodup :=
    List.nodup_reverse.mpr (hclock.imp fun h => ne_of_lt h)
  refine List.Nodup.append hnew hheld ?_
  intro x hx hx'
  rcases List.mem_map.mp (List.mem_reverse.mp hx) with ⟨c, hc, rfl⟩
  exact lt_irrefl _ (hlater c hc _ hx')

/-- C17 (amended), for two notifications a millisecond apart in the state `sendOpenApp`. -/
theorem addNotification_ids_distinct_witness :
    ((notifyAll sendOpenApp
        [(demoNotification, 1700000000000, true), (demoNotification, 1700000000001, true)]
        ).state.notifications.map (·.id)).Nodup :=
  (addNotification_ids_distinct sendOpenApp
    [(demoNotification, 1700000000000, true), (demoNotification, 1700000000001, true)]
    (by decide) (by decide) (by decide)).2

/-! ## Balances: a fetch that succeeds -/

/-- C18: for every state with a wallet whose address is not empty and every fetched list,
`updateBalances()` puts in `balances` what the specification says, whatever `balances` held
before: no key but `SUI`, and `SUI` exactly when the list has an entry of coin type
`0x2::sui::SUI`, valued at the quotient by 10^9 of the `totalBalance` of the last such entry,
as the division of double-precision arithmetic (`perBillion`) gives it.  Every other field
of the state is what it was.  The same holds of the continuation of the `await` alone, on
whatever state it runs. -/
theorem updateBalances_replaces (perBillion : JsNum → JsNum) (a : App) (w : Wallet)
    (l : List CoinBalance) (ok : Bool)
    (hw : a.state.wallet = some w) (haddr : w.address ≠ []) :
    updateBalancesGuard a = true ∧
    (updateBalances perBillion a (some l) ok).state.balances = specBalances perBillion l ∧
    (updateBalances perBillion a (some l) ok).state
      = { a.state with balances := specBalances perBillion l } ∧
    (∀ kv ∈ (updateBalances perBillion a (some l) ok).state.balances, kv.1 = lit "SUI") ∧
    ((∃ v, (lit "SUI", v) ∈ (updateBalances perBillion a (some l) ok).state.balances)
      ↔ ∃ b ∈ l, b.coinType = lit "0x2::sui::SUI") ∧
    (∀ t, lastSuiEntry l = some t →
      (updateBalances perBillion a (some l) ok).state.balances
        = [(lit "SUI", .num (perBillion t))]) ∧
    (updateBalancesResume perBillion a (some l) ok).state
      = { a.state with balances := specBalances perBillion l } := by
  have hg : updateBalancesGuard a = true := by
    simp [updateBalancesGuard, hw, truthyStr, haddr]
  have hfill : ∀ b : App, (updateBalancesResume perBillion b (some l) ok).state
      = { b.state with balances := specBalances perBillion l } := by
    intro b
    simp only [updateBalancesResume, saveState_state]
    rw [fill_eq_spec perBillion l [] (Or.inl rfl)]
    rfl
  have hr : (updateBalances perBillion a (some l) ok).state
      = { a.state with balances := specBalances perBillion l } := by
    simp only [updateBalances, hg, if_true]
    exact hfill a
  refine ⟨hg, by rw [hr], hr, ?_, ?_, ?_, hfill a⟩
  · rw [hr]
    intro kv hkv
    simp only [specBalances] at hkv
    cases hl : lastSuiEntry l with
    | none => simp [hl] at hkv
    | some t =>
      simp only [hl, List.mem_singleton] at hkv
      rw [hkv]
  · rw [hr]
    simp only [specBalances]
    have hex : (∃ b ∈ l, b.coinType = lit "0x2::sui::SUI") ↔ lastSuiEntry l ≠ none := by
      unfold lastSuiEntry
      rw [Ne, Option.map_eq_none', List.getLast?_eq_none_iff, List.filter_eq_nil_iff]
      simp
    rw [hex]
    cases hl : lastSuiEntry l with
    | none => simp
    | some t => simp
  · intro t ht
    rw [hr]
    simp only [specBalances, ht]

/-- C18, for the wallet `0x4` and a fetched list with entries of 1 and of 2.5 SUI: the balance
of SUI is 2.5, the quotient of the last entry, and the balance held before is gone. -/
theorem updateBalances_replaces_witness :
    nanBalanceApp.state.wallet = some ⟨lit "0x4", lit "zkLogin", true⟩ ∧
    nanBalanceApp.state.balances = [(lit "SUI", .num .nan)] ∧
    (updateBalances demoPerBillion nanBalanceApp (some demoBalances) true).state.balances
      = [(lit "SUI", .num (.fin (5 / 2)))] :=
  ⟨by decide, by decide,
    ((updateBalances_replaces demoPerBillion nanBalanceApp ⟨lit "0x4", lit "zkLogin", true⟩
      demoBalances true (by decide) (by decide)).2.1).trans rfl⟩

/-! ## Verification -/

/-- C20: `verifyProduct()` stops at its validation, with the error `Please enter product ID`
and no timer set, exactly when the id entered is empty once the white space around it is
trimmed; for every other id it sets its timer and settles with a verification result, the
product `mockProduct` of the trimmed id.  In both cases state and store are what they
were. -/
theorem verifyProduct_validation (a : App) (entered : JsString) :
    ((verifyProductStart a (some entered)).2 = none ↔ trim entered = []) ∧
    (trim entered = [] →
      verifyProductStart a (some entered)
        = (showToast a (lit "Please enter product ID") .error, none)) ∧
    (trim entered ≠ [] →
      verifyProductStart a (some entered)
        = (showToast a (lit "Verifying product...") .info, some (trim entered)) ∧
      (verifyProduct a (some entered)).2 = some (mockProduct (trim entered))) ∧
    (verifyProduct a (some entered)).1.state = a.state ∧
    (verifyProduct a (some entered)).1.storage = a.storage := by
  by_cases ht : trim entered = []
  · have hs : verifyProductStart a (some entered)
        = (showToast a (lit "Please enter product ID") .error, none) := by
      simp [verifyProductStart, truthyStr, ht]
    refine ⟨by simp [hs, ht], fun _ => hs, fun h => absurd ht h, ?_, ?_⟩ <;>
      simp [verifyProduct, hs]
  · have hs : verifyProductStart a (some entered)
        = (showToast a (lit "Verifying product...") .info, some (trim entered)) := by
      simp [verifyProductStart, truthyStr, ht]
    refine ⟨by simp [hs, ht], fun h => absurd h ht, fun _ => ⟨hs, ?_⟩, ?_, ?_⟩ <;>
      simp [verifyProduct, hs, verifyProductSettle]

/-- C20, for an id of two blanks and for the id `prod_i` between blanks. -/
theorem verifyProduct_validation_witness :
    (verifyProductStart startedApp (some (lit "  "))).2 = none ∧
    (verifyProduct startedApp (some (lit " prod_i "))).2 = some (mockProduct (lit "prod_i")) :=
  ⟨((verifyProduct_validation startedApp (lit "  ")).1).mpr (by decide),
    (((verifyProduct_validation startedApp (lit " prod_i ")).2.2.1) (by decide)).2.trans
      (by decide)⟩

/-! ## Lemmas on the connect operations, on `products` and on phrases and addresses -/

/-- When authenticated, loading a page shows no toast. -/
theorem loadPage_toasts_of_authenticated (a : App) (page : JsString)
    (h : a.state.isAuthenticated = true) : (loadPage a page).toasts = a.toasts := by
  unfold loadPage
  simp only [h]
  repeat (first | rfl | split)

/-- The state after the callback of `connectSuiWallet()`. -/
theorem connectSuiWalletSettle_state (a : App) (env : ConnectEnv) :
    (connectSuiWalletSettle a env).state =
      { a.state with
        user := some { id := lit "user_" ++ env.rand36, email := lit "user@example.com",
                       name := lit "Google User", provider := lit "google" }
        wallet := some { address := lit "0x" ++ env.rand16, provider := lit "zkLogin",
                         connected := true }
        isAuthenticated := true } := by
  simp [connectSuiWalletSettle]

/-- The toasts after the callback of `connectSuiWallet()`. -/
theorem connectSuiWalletSettle_toasts (a : App) (env : ConnectEnv) :
    (connectSuiWalletSettle a env).toasts
      = ⟨lit "Successfully connected!", .success⟩ :: a.toasts := by
  unfold connectSuiWalletSettle
  rw [loadPage_toasts_of_authenticated _ _ (by simp)]
  simp

/-- The state after `connectSuiWalletExtension()` was given an account. -/
theorem connectSuiWalletExtension_state (a : App) (account : JsString) (rest : List JsString)
    (ok : Bool) :
    (connectSuiWalletExtension a (some (.accounts (some (account :: rest)))) ok).state =
      { a.state with
        wallet := some { address := account, provider := lit "Sui Wallet", connected := true }
        isAuthenticated := true } := by
  simp [connectSuiWalletExtension]

/-- The toasts after `connectSuiWalletExtension()` was given an account. -/
theorem connectSuiWalletExtension_toasts (a : App) (account : JsString) (rest : List JsString)
    (ok : Bool) :
    (connectSuiWalletExtension a (some (.accounts (some (account :: rest)))) ok).toasts
      = ⟨lit "Sui Wallet connected!", .success⟩ :: a.toasts := by
  unfold connectSuiWalletExtension
  simp only
  rw [loadPage_toasts_of_authenticated _ _ (by simp)]
  simp

/-- The state after the callback of `sendMagicLink()`. -/
theorem sendMagicLinkSettle_state (a : App) (email : JsString) (env : ConnectEnv) :
    (sendMagicLinkSettle a email env).state =
      { a.state with
        user := some { id := lit "user_" ++ env.rand36, email := email,
                       name := email.takeWhile (· != atSign), provider := lit "email" }
        wallet := some { address := lit "0x" ++ env.rand16, provider := lit "magic_link",
                         connected := true }
        isAuthenticated := true } := by
  simp [sendMagicLinkSettle]

/-- The toasts after the callback of `sendMagicLink()`. -/
theorem sendMagicLinkSettle_toasts (a : App) (email : JsString) (env : ConnectEnv) :
    (sendMagicLinkSettle a email env).toasts
      = ⟨lit "Check your email for the magic link!", .success⟩ :: a.toasts := by
  unfold sendMagicLinkSettle
  rw [loadPage_toasts_of_authenticated _ _ (by simp)]
  simp

/-- The state after the callback of `importWallet()`. -/
theorem importWalletSettle_state (a : App) (env : ConnectEnv) :
    (importWalletSettle a env).state =
      { a.state with
        wallet := some { address := lit "0x" ++ env.rand16, provider := lit "imported",
                         connected := true }
        isAuthenticated := true } := by
  simp [importWalletSettle]

/-- The state after the callback of `createNewWallet()`. -/
theorem createNewWalletSettle_state (a : App) (env : ConnectEnv) :
    (createNewWalletSettle a env).state =
      { a.state with
        wallet := some { address := lit "0x" ++ env.rand16, provider := lit "new",
                         connected := true }
        isAuthenticated := true } := by
  simp [createNewWalletSettle]

/-- What the validation of `sendMagicLink()` lets through. -/
theorem sendMagicLinkStart_accepts (a : App) (email : JsString) (h : atSign ∈ email) :
    sendMagicLinkStart a (some email)
      = (showToast a (lit "Sending magic link...") .info, some email) := by
  have hne : email ≠ [] := by
    intro he
    rw [he] at h
    exact absurd h (List.not_mem_nil _)
  simp [sendMagicLinkStart, truthyStr, hne, h]

/-- No call writes `products` in its synchronous part. -/
theorem runCall_products (c : Call) (e : Platform) (a : App) :
    (runCall c e a).1.state.products = a.state.products := by
  cases c with
  | connectWallet => rfl
  | showProductModal => simp only [runCall, showProductModal]; split <;> rfl
  | showSendModal => simp only [runCall, showSendModal]; split <;> rfl
  | connectWithEmail => rfl
  | connectSuiWallet => rfl
  | connectSuiWalletExtension installed =>
    simp only [runCall]; split
    · rfl
    · rfl
  | sendMagicLink email => simp only [runCall, sendMagicLinkStart]; split <;> rfl
  | registerProduct form =>
    simp only [runCall, registerProductStart]
    split
    · rfl
    · split <;> rfl
  | sendPayment i => simp only [runCall, sendPaymentStart]; split <;> rfl
  | verifyProduct entered => simp only [runCall, verifyProductStart]; split <;> rfl
  | importWallet seed => simp only [runCall, importWalletStart]; split <;> rfl
  | createNewWallet => rfl
  | logout confirmed => simp only [runCall, logout]; split <;> simp
  | saveSettings network currency =>
    simp only [runCall, saveSettings, showToast_state, saveState_state]
    split <;> split <;> rfl
  | toggleTheme current => simp only [runCall, toggleTheme]; split <;> rfl
  | loadPage page => simp [runCall]
  | updateBalances => rfl

/-- `connectSuiWalletExtension()` leaves `products` alone. -/
theorem connectSuiWalletExtension_products (a : App) (ext : Option ExtensionReply) (ok : Bool) :
    (connectSuiWalletExtension a ext ok).state.products = a.state.products := by
  unfold connectSuiWalletExtension
  split <;> simp

/-- `updateBalances()` leaves `products` alone. -/
theorem updateBalancesResume_products (perBillion : JsNum → JsNum) (a : App)
    (fetched : Option (List CoinBalance)) (ok : Bool) :
    (updateBalancesResume perBillion a fetched ok).state.products = a.state.products := by
  unfold updateBalancesResume
  split <;> simp

/-- `initWallet()` leaves `products` alone. -/
theorem initWallet_products (a : App) : (initWallet a).state.products = a.state.products := by
  unfold initWallet
  split <;> rfl

/-- What a waiting callback does to `products`: the callback of `registerProduct()` puts
one product at the end, every other callback leaves the list alone. -/
theorem fire_products (numStr : JsNum → JsString) (t : Timer) (e : Platform) (a : App) :
    (fire numStr t e a).state.products
      = match t with
        | .registerProduct pd => a.state.products ++ [newProduct a.state pd e.registerEnv]
        | _ => a.state.products := by
  cases t with
  | connectSuiWallet => simp [fire, connectSuiWalletSettle_state]
  | sendMagicLink email => simp [fire, sendMagicLinkSettle_state]
  | registerProduct productData => simp [fire, registerProductSettle_state]
  | sendPayment p => simp [fire, sendPaymentSettle_state]
  | verifyProduct productId => simp [fire, verifyProductSettle]
  | importWallet => simp [fire, importWalletSettle_state]
  | createNewWallet => simp [fire, createNewWalletSettle_state]
  | extensionRequest => simp [fire, connectSuiWalletExtension_products]
  | balancesFetch => simp [fire, updateBalancesResume_products]
  | initRest => simp [fire, initWallet_products]

/-- An empty phrase has one part, not twelve. -/
theorem split_trim_length_of_nil (phrase : JsString) (h : trim phrase = []) :
    (split 32 (trim phrase)).length ≠ 12 := by
  rw [h]
  decide

/-- The test of line 1587 on a phrase that was read: it passes exactly when the trimmed
phrase has twelve parts. -/
theorem importWalletStart_iff (a : App) (phrase : JsString) :
    importWalletStart a (some phrase)
      = if (split 32 (trim phrase)).length = 12 then
          (showToast a (lit "Importing wallet...") .info, true)
        else (showToast a (lit "Please enter a valid 12-word phrase") .error, false) := by
  by_cases ht : trim phrase = []
  · have hl := split_trim_length_of_nil phrase ht
    simp [importWalletStart, truthyStr, ht, hl]
    rw [ht] at hl
    simp [hl]
  · by_cases hl : (split 32 (trim phrase)).length = 12
    · simp [importWalletStart, truthyStr, ht, hl]
    · simp [importWalletStart, truthyStr, ht, hl]

/-- `formatAddress` on an address longer than twice the length asked for. -/
theorem formatAddress_long (address : JsString) (L : Nat) (h : 2 * L < address.length) :
    formatAddress (some address) L
      = address.take L ++ lit "..." ++ address.drop (address.length - L) := by
  have hne : address ≠ [] := by
    intro he
    rw [he] at h
    simp at h
  have hnot : ¬ address.length ≤ L * 2 := by omega
  simp [formatAddress, truthyStr, hne, hnot]

/-! ## Verification of an id that no product has -/

/-- C21 (as stated, refuted): on the verify page at the first start, where `products` is
empty, `verifyProduct()` with the id `prod_zzz` settles with a product whose `verified` is
true, and the panel shows the badge `Verified ✓`. -/
theorem verifyProduct_unknown_id_verified :
    verifyPageApp.state.products = [] ∧
    (verifyProduct verifyPageApp (some (lit "prod_zzz"))).2
      = some (mockProduct (lit "prod_zzz")) ∧
    (mockProduct (lit "prod_zzz")).verified = true ∧
    ((verifyProductSettle (verifyProductStart verifyPageApp (some (lit "prod_zzz"))).1
        (lit "prod_zzz")).2.2).map (·.badgeText) = some (lit "Verified ✓") := by
  decide

/-- C21 (amended): for every state and every id that is not empty once trimmed, whether or
not a product of `products` has it, `verifyProduct()` settles with the same made-up product
(`Verified Product`, `verified` true) carrying the trimmed id; `products` is not looked at.
When the verify page is the page rendered the panel shows it with the badge `Verified ✓` of
class `badge bg-success`; otherwise nothing is shown. -/
theorem verifyProduct_always_verified (a : App) (entered : JsString)
    (h : trim entered ≠ []) :
    (verifyProduct a (some entered)).2 = some (mockProduct (trim entered)) ∧
    (mockProduct (trim entered)).id = trim entered ∧
    (mockProduct (trim entered)).name = lit "Verified Product" ∧
    (mockProduct (trim entered)).verified = true ∧
    (∀ b : App, (verifyProduct b (some entered)).2 = (verifyProduct a (some entered)).2) ∧
    (∀ b : App, b.page = some .verify →
      ((verifyProductSettle b (trim entered)).2.2).map (fun p => (p.badgeClass, p.badgeText))
        = some (lit "badge bg-success", lit "Verified ✓")) ∧
    (∀ b : App, b.page ≠ some .verify → (verifyProductSettle b (trim entered)).2.2 = none) := by
  have hv : ∀ b : App, (verifyProduct b (some entered)).2 = some (mockProduct (trim entered)) :=
    fun b => ((verifyProduct_validation b entered).2.2.1 h).2
  refine ⟨hv a, rfl, rfl, rfl, fun b => by rw [hv b, hv a], ?_, ?_⟩
  · intro b hb
    simp only [verifyProductSettle, displayVerificationResult, hb, if_true, mockProduct,
      Option.map_some']
    rfl
  · intro b hb
    simp [verifyProductSettle, displayVerificationResult, hb]

/-- C21 (amended), for the id `prod_zzz` on the verify page at the first start. -/
theorem verifyProduct_always_verified_witness :
    trim (lit "prod_zzz") ≠ [] ∧
    (verifyProduct verifyPageApp (some (lit "prod_zzz"))).2
      = some (mockProduct (trim (lit "prod_zzz"))) :=
  ⟨by decide, (verifyProduct_always_verified verifyPageApp (lit "prod_zzz") (by decide)).1⟩

/-! ## Connecting -/

/-- C22: for every prior state, a connect that succeeds leaves `isAuthenticated` true and a
wallet that is connected and has the address of the credential: the address drawn for
`connectSuiWallet()` and for `sendMagicLink()`, the first account returned for
`connectSuiWalletExtension()`.  With `sendMagicLink()`, an email that contains `@` passes the
validation and `user.email` is the email entered. -/
theorem connect_binds_session (a : App) (env : ConnectEnv) (account : JsString)
    (rest : List JsString) (ok : Bool) (email : JsString) (hat : atSign ∈ email) :
    ((connectSuiWalletSettle a env).state.isAuthenticated = true ∧
      (connectSuiWalletSettle a env).state.wallet
        = some ⟨lit "0x" ++ env.rand16, lit "zkLogin", true⟩) ∧
    ((connectSuiWalletExtension a (some (.accounts (some (account :: rest)))) ok
        ).state.isAuthenticated = true ∧
      (connectSuiWalletExtension a (some (.accounts (some (account :: rest)))) ok
        ).state.wallet = some ⟨account, lit "Sui Wallet", true⟩) ∧
    ((sendMagicLinkStart a (some email)).2 = some email ∧
      (sendMagicLinkSettle a email env).state.isAuthenticated = true ∧
      (sendMagicLinkSettle a email env).state.wallet
        = some ⟨lit "0x" ++ env.rand16, lit "magic_link", true⟩ ∧
      (sendMagicLinkSettle a email env).state.user.map (·.email) = some email) := by
  refine ⟨⟨?_, ?_⟩, ⟨?_, ?_⟩, ⟨?_, ?_, ?_, ?_⟩⟩
  · rw [connectSuiWalletSettle_state]
  · rw [connectSuiWalletSettle_state]
  · rw [connectSuiWalletExtension_state]
  · rw [connectSuiWalletExtension_state]
  · rw [sendMagicLinkStart_accepts a email hat]
  · rw [sendMagicLinkSettle_state]
  · rw [sendMagicLinkSettle_state]
  · rw [sendMagicLinkSettle_state]
    rfl

/-- C22, for the email `ada@example.com` at the first start. -/
theorem connect_binds_session_witness :
    atSign ∈ lit "ada@example.com" ∧
    (sendMagicLinkSettle startedApp (lit "ada@example.com") demoPlatform.connectEnv
      ).state.user.map (·.email) = some (lit "ada@example.com") ∧
    (connectSuiWalletSettle startedApp demoPlatform.connectEnv).state.wallet
      = some ⟨lit "0x4", lit "zkLogin", true⟩ :=
  ⟨by decide,
    (connect_binds_session startedApp demoPlatform.connectEnv (lit "0xabc") [] true
      (lit "ada@example.com") (by decide)).2.2.2.2.2,
    ((connect_binds_session startedApp demoPlatform.connectEnv (lit "0xabc") [] true
      (lit "ada@example.com") (by decide)).1.2).trans (by decide)⟩

/-- C23 (as stated, refuted): after `connectSuiWallet()` has settled at the first start,
`notifications` is as empty as it was: its length is not one more. -/
theorem connect_adds_no_notification_example :
    Sys.run demoNumStr (Sys.start Storage.empty) connectTrace = some ⟨connectedApp, []⟩ ∧
    startedApp.state.notifications = [] ∧
    connectedApp.state.isAuthenticated = true ∧
    connectedApp.state.notifications = [] ∧
    connectedApp.state.notifications.length ≠ startedApp.state.notifications.length + 1 := by
  decide

/-- C23 (amended): for every prior state, a connect that succeeds, through any of the three
providers, leaves `notifications` as it was; that the wallet is connected is told by one
toast of level success: `Successfully connected!`, `Sui Wallet connected!` or
`Check your email for the magic link!`. -/
theorem connect_reports_by_toast (a : App) (env : ConnectEnv) (account : JsString)
    (rest : List JsString) (ok : Bool) (email : JsString) :
    ((connectSuiWalletSettle a env).state.notifications = a.state.notifications ∧
      (connectSuiWalletSettle a env).toasts
        = ⟨lit "Successfully connected!", .success⟩ :: a.toasts) ∧
    ((connectSuiWalletExtension a (some (.accounts (some (account :: rest)))) ok
        ).state.notifications = a.state.notifications ∧
      (connectSuiWalletExtension a (some (.accounts (some (account :: rest)))) ok).toasts
        = ⟨lit "Sui Wallet connected!", .success⟩ :: a.toasts) ∧
    ((sendMagicLinkSettle a email env).state.notifications = a.state.notifications ∧
      (sendMagicLinkSettle a email env).toasts
        = ⟨lit "Check your email for the magic link!", .success⟩ :: a.toasts) := by
  refine ⟨⟨?_, connectSuiWalletSettle_toasts a env⟩,
    ⟨?_, connectSuiWalletExtension_toasts a account rest ok⟩,
    ⟨?_, sendMagicLinkSettle_toasts a email env⟩⟩
  · rw [connectSuiWalletSettle_state]
  · rw [connectSuiWalletExtension_state]
  · rw [sendMagicLinkSettle_state]

/-- C24 (as stated, refuted): the program reaches `fundedApp`, with the wallet `0x4` and a
balance of SUI, and from it `reboundApp` by `createNewWallet()`: the wallet is now `0x8`, and
`balances` is what it was for `0x4`, not empty. -/
theorem rebinding_keeps_balances_example :
    Sys.run demoNumStr (Sys.start Storage.empty) reboundTrace = some ⟨reboundApp, []⟩ ∧
    fundedApp.state.wallet = some ⟨lit "0x4", lit "zkLogin", true⟩ ∧
    reboundApp.state.wallet = some ⟨lit "0x8", lit "new", true⟩ ∧
    reboundApp.state.balances = fundedApp.state.balances ∧
    reboundApp.state.balances ≠ [] :=
  ⟨rfl, by decide, by decide, rfl, by decide⟩

/-- C24 (amended): for every state, with a wallet bound or not, an operation that binds a
wallet (`connectSuiWallet()`, `connectSuiWalletExtension()` given an account,
`sendMagicLink()`, `importWallet()`, `createNewWallet()`) puts the new wallet in the place of
the previous one and sets `isAuthenticated`; `balances` is left as it was (it is replaced by
the next `updateBalances()` that succeeds), `products` is unchanged, so each product keeps its
owner, and `notifications` and the settings are unchanged.  `user` is replaced by
`connectSuiWallet()` and `sendMagicLink()` and left as it was by the other three. -/
theorem rebinding_keeps_balances_and_products (a : App) (env : ConnectEnv)
    (account : JsString) (rest : List JsString) (ok : Bool) (email : JsString) :
    (connectSuiWalletSettle a env).state
      = { a.state with
          user := (connectSuiWalletSettle a env).state.user
          wallet := some ⟨lit "0x" ++ env.rand16, lit "zkLogin", true⟩
          isAuthenticated := true } ∧
    (connectSuiWalletExtension a (some (.accounts (some (account :: rest)))) ok).state
      = { a.state with
          wallet := some ⟨account, lit "Sui Wallet", true⟩
          isAuthenticated := true } ∧
    (sendMagicLinkSettle a email env).state
      = { a.state with
          user := (sendMagicLinkSettle a email env).state.user
          wallet := some ⟨lit "0x" ++ env.rand16, lit "magic_link", true⟩
          isAuthenticated := true } ∧
    (importWalletSettle a env).state
      = { a.state with
          wallet := some ⟨lit "0x" ++ env.rand16, lit "imported", true⟩
          isAuthenticated := true } ∧
    (createNewWalletSettle a env).state
      = { a.state with
          wallet := some ⟨lit "0x" ++ env.rand16, lit "new", true⟩
          isAuthenticated := true } ∧
    ((connectSuiWalletSettle a env).state.balances = a.state.balances ∧
      (connectSuiWalletExtension a (some (.accounts (some (account :: rest)))) ok
        ).state.balances = a.state.balances ∧
      (sendMagicLinkSettle a email env).state.balances = a.state.balances ∧
      (importWalletSettle a env).state.balances = a.state.balances ∧
      (createNewWalletSettle a env).state.balances = a.state.balances) ∧
    ((connectSuiWalletSettle a env).state.products = a.state.products ∧
      (connectSuiWalletExtension a (some (.accounts (some (account :: rest)))) ok
        ).state.products = a.state.products ∧
      (sendMagicLinkSettle a email env).state.products = a.state.products ∧
      (importWalletSettle a env).state.products = a.state.products ∧
      (createNewWalletSettle a env).state.products = a.state.products) := by
  refine ⟨?_, connectSuiWalletExtension_state a account rest ok, ?_,
    importWalletSettle_state a env, createNewWalletSettle_state a env,
    ⟨?_, ?_, ?_, ?_, ?_⟩, ⟨?_, ?_, ?_, ?_, ?_⟩⟩
  · rw [connectSuiWalletSettle_state]
  · rw [sendMagicLinkSettle_state]
  · rw [connectSuiWalletSettle_state]
  · rw [connectSuiWalletExtension_state]
  · rw [sendMagicLinkSettle_state]
  · rw [importWalletSettle_state]
  · rw [createNewWalletSettle_state]
  · rw [connectSuiWalletSettle_state]
  · rw [connectSuiWalletExtension_state]
  · rw [sendMagicLinkSettle_state]
  · rw [importWalletSettle_state]
  · rw [createNewWalletSettle_state]

/-- C25: for every state, `connectSuiWalletExtension()` called when `window.suiWallet` is
undefined shows the warning `Please install Sui Wallet extension` and returns: nothing is
left waiting, and the state (`wallet`, `user`, `isAuthenticated` and every other field) and
the store are what they were. -/
theorem connectSuiWalletExtension_absent (a : App) (ok : Bool) (e : Platform) :
    connectSuiWalletExtension a none ok
      = showToast a (lit "Please install Sui Wallet extension") .warning ∧
    (runCall (.connectSuiWalletExtension false) e a).2 = none ∧
    (connectSuiWalletExtension a none ok).state = a.state ∧
    (connectSuiWalletExtension a none ok).state.wallet = a.state.wallet ∧
    (connectSuiWalletExtension a none ok).state.user = a.state.user ∧
    (connectSuiWalletExtension a none ok).state.isAuthenticated = a.state.isAuthenticated ∧
    (connectSuiWalletExtension a none ok).storage = a.storage := by
  have h : connectSuiWalletExtension a none ok
      = showToast a (lit "Please install Sui Wallet extension") .warning := rfl
  rw [h]
  exact ⟨rfl, by simp [runCall], rfl, rfl, rfl, rfl, rfl⟩

/-! ## Products are only added -/

/-- C26: for every state, every call of a method and every waiting callback (the operations
of the program but for a reload and `clearSessions`), the `products` of before is a prefix of
the `products` of after: no call changes the list in its synchronous part, a callback other
than that of `registerProduct()` leaves it as it was, and the callback of
`registerProduct()` puts one product at its end. -/
theorem products_only_grow (numStr : JsNum → JsString) (a : App) (c : Call) (t : Timer)
    (e : Platform) :
    (runCall c e a).1.state.products = a.state.products ∧
    a.state.products <+: (fire numStr t e a).state.products ∧
    ((fire numStr t e a).state.products ≠ a.state.products → ∃ pd, t = .registerProduct pd) ∧
    (∀ pd, (fire numStr (.registerProduct pd) e a).state.products
      = a.state.products ++ [newProduct a.state pd e.registerEnv]) := by
  refine ⟨runCall_products c e a, ?_, ?_, fun pd => fire_products numStr _ e a⟩
  · rw [fire_products]
    cases t <;> first | exact ⟨[], List.append_nil _⟩ | exact ⟨_, rfl⟩
  · rw [fire_products]
    cases t <;> first | (intro h; exact absurd rfl h) | (intro _; exact ⟨_, rfl⟩)

/-! ## Router: unknown tokens -/

/-- C27: for every token that is none of `home`, `dashboard`, `wallet`, `products`, `verify`,
`settings` (the empty token is one), `loadPage` does what `loadPage('home')` does: the home
page is rendered, no toast is shown, and state and store are what they were. -/
theorem loadPage_unknown_token (a : App) (token : JsString)
    (h1 : token ≠ lit "home") (h2 : token ≠ lit "dashboard") (h3 : token ≠ lit "wallet")
    (h4 : token ≠ lit "products") (h5 : token ≠ lit "verify") (h6 : token ≠ lit "settings") :
    loadPage a token = loadPage a (lit "home") ∧
    (loadPage a token).page = some .home ∧
    (loadPage a token).toasts = a.toasts ∧
    (loadPage a token).state = a.state ∧
    (loadPage a token).storage = a.storage := by
  have hl : loadPage a token = { a with page := some .home } := by
    simp [loadPage, h1, h2, h3, h4, h5, h6]
  have hh : loadPage a (lit "home") = { a with page := some .home } := by
    simp [loadPage]
  rw [hl, hh]
  exact ⟨rfl, rfl, rfl, rfl, rfl⟩

/-- C27, for the empty token in the state `connectedApp`. -/
theorem loadPage_unknown_token_witness :
    loadPage connectedApp [] = loadPage connectedApp (lit "home") ∧
    (loadPage connectedApp []).page = some .home :=
  ⟨(loadPage_unknown_token connectedApp [] (by decide) (by decide) (by decide) (by decide)
      (by decide) (by decide)).1,
    (loadPage_unknown_token connectedApp [] (by decide) (by decide) (by decide) (by decide)
      (by decide) (by decide)).2.1⟩

/-! ## Page refresh hooks -/

/-- C28: for every state and every page, the hooks run on entering a page return with the
application as it was, and what they write (the total balance, the number of products, the
address shown, the settings shown) is a function of the state and of the page rendered
alone: a second run writes what the first wrote, and so does a run on any application with
the same state and the same page rendered. -/
theorem refresh_hooks_read_only (toFixed2 : JsNum → JsString) (a b : App) (page : JsString)
    (hs : b.state = a.state) (hp : b.page = a.page) :
    (initPageScripts toFixed2 a page).1 = a ∧
    (updateDashboard toFixed2 a).1 = a ∧
    (updateWallet toFixed2 a).1 = a ∧
    (initSettings a).1 = a ∧
    (initPageScripts toFixed2 (initPageScripts toFixed2 a page).1 page).2
      = (initPageScripts toFixed2 a page).2 ∧
    (updateDashboard toFixed2 (updateDashboard toFixed2 a).1).2
      = (updateDashboard toFixed2 a).2 ∧
    (updateWallet toFixed2 (updateWallet toFixed2 a).1).2 = (updateWallet toFixed2 a).2 ∧
    (initPageScripts toFixed2 b page).2 = (initPageScripts toFixed2 a page).2 ∧
    (a.page = some .dashboard →
      (updateDashboard toFixed2 a).2
        = some ⟨lit "$" ++ toFixed2 (getTotalBalance a.state), a.state.products.length⟩) := by
  have h1 : (initPageScripts toFixed2 a page).1 = a := by
    unfold initPageScripts
    repeat (first | rfl | split)
  refine ⟨h1, rfl, rfl, rfl, by rw [h1], rfl, rfl, ?_, ?_⟩
  · simp only [initPageScripts, updateDashboard, updateWallet, initQRScanner, initSettings,
      hs, hp]
    repeat (first | rfl | split)
  · intro hd
    simp [updateDashboard, hd]

/-- C28, for the dashboard of the state `fundedApp`, and a second application with the same
state in which a toast was shown. -/
theorem refresh_hooks_read_only_witness :
    (initPageScripts demoNumStr (showToast fundedApp (lit "Sending payment...") .info)
        (lit "dashboard")).2
      = (initPageScripts demoNumStr fundedApp (lit "dashboard")).2 :=
  (refresh_hooks_read_only demoNumStr fundedApp
    (showToast fundedApp (lit "Sending payment...") .info) (lit "dashboard") rfl rfl).2.2.2.2.2.2.2.1

/-! ## Addresses and recovery phrases -/

/-- C29: for every address and every length `L`, `formatAddress(address, L)` is
`Not connected` when the address is absent or empty; the address itself when it has at most
`2 * L` code units; and otherwise the first `L` code units of the address, then `...`, then
its last `L` code units, `2 * L + 3` code units in all. -/
theorem formatAddress_spec (address : JsString) (L : Nat) :
    formatAddress none L = lit "Not connected" ∧
    formatAddress (some []) L = lit "Not connected" ∧
    (address ≠ [] → address.length ≤ 2 * L → formatAddress (some address) L = address) ∧
    (2 * L < address.length →
      formatAddress (some address) L
        = address.take L ++ lit "..." ++ address.drop (address.length - L) ∧
      (address.take L).length = L ∧
      (address.drop (address.length - L)).length = L ∧
      address.drop (address.length - L) <:+ address ∧
      (formatAddress (some address) L).length = 2 * L + 3) := by
  refine ⟨rfl, rfl, ?_, ?_⟩
  · intro hne hle
    have hle' : address.length ≤ L * 2 := by omega
    simp [formatAddress, truthyStr, hne, hle']
  · intro hlt
    have h3 : (lit "...").length = 3 := by decide
    refine ⟨formatAddress_long address L hlt, ?_, ?_, ⟨_, List.take_append_drop _ _⟩, ?_⟩
    · rw [List.length_take]; omega
    · rw [List.length_drop]; omega
    · rw [formatAddress_long address L hlt, List.length_append, List.length_append,
        List.length_take, List.length_drop, h3]
      omega

/-- C29, for an address of 18 code units and the length 6 that `updateWallet()` uses. -/
theorem formatAddress_spec_witness :
    formatAddress (some (lit "0x1234567890abcdef")) 6 = lit "0x1234...abcdef" ∧
    (formatAddress (some (lit "0x1234567890abcdef")) 6).length = 2 * 6 + 3 :=
  ⟨(((formatAddress_spec (lit "0x1234567890abcdef") 6).2.2.2) (by decide)).1.trans (by decide),
    (((formatAddress_spec (lit "0x1234567890abcdef") 6).2.2.2) (by decide)).2.2.2.2⟩

/-- C30: `importWallet()` accepts the phrase read exactly when the phrase, once trimmed,
splits at its blanks in twelve parts.  Every other phrase is rejected with the error
`Please enter a valid 12-word phrase`, no timer, and state and store as they were.  A phrase
that is accepted sets the timer, whose callback, on whatever state it runs, leaves a wallet
that is connected, of provider `imported`, and `isAuthenticated` true. -/
theorem importWallet_accepts_iff (a b : App) (phrase : JsString) (env : ConnectEnv) :
    ((importWalletStart a (some phrase)).2 = true ↔ (split 32 (trim phrase)).length = 12) ∧
    ((split 32 (trim phrase)).length ≠ 12 →
      importWalletStart a (some phrase)
        = (showToast a (lit "Please enter a valid 12-word phrase") .error, false) ∧
      (importWallet a (some phrase) env).state = a.state ∧
      (importWallet a (some phrase) env).storage = a.storage) ∧
    ((split 32 (trim phrase)).length = 12 →
      importWalletStart a (some phrase) = (showToast a (lit "Importing wallet...") .info, true) ∧
      (importWallet a (some phrase) env).state.wallet
        = some ⟨lit "0x" ++ env.rand16, lit "imported", true⟩ ∧
      (importWallet a (some phrase) env).state.isAuthenticated = true) ∧
    (importWalletSettle b env).state.wallet
      = some ⟨lit "0x" ++ env.rand16, lit "imported", true⟩ ∧
    (importWalletSettle b env).state.isAuthenticated = true := by
  have hs := importWalletStart_iff a phrase
  refine ⟨?_, ?_, ?_, by rw [importWalletSettle_state], by rw [importWalletSettle_state]⟩
  · rw [hs]
    by_cases hl : (split 32 (trim phrase)).length = 12 <;> simp [hl]
  · intro hl
    rw [if_neg hl] at hs
    refine ⟨hs, ?_, ?_⟩ <;> simp [importWallet, hs]
  · intro hl
    rw [if_pos hl] at hs
    refine ⟨hs, ?_, ?_⟩ <;> simp [importWallet, hs, importWalletSettle_state]

/-- C30, for a phrase of twelve words between blanks and for a phrase of two words. -/
theorem importWallet_accepts_iff_witness :
    (importWalletStart startedApp (some demoPhrase)).2 = true ∧
    (importWallet startedApp (some (lit "a b")) demoPlatform.connectEnv).state
      = startedApp.state :=
  ⟨((importWallet_accepts_iff startedApp startedApp demoPhrase demoPlatform.connectEnv).1).mpr
      (by decide),
    (((importWallet_accepts_iff startedApp startedApp (lit "a b") demoPlatform.connectEnv).2.1)
      (by decide)).2.1⟩

end Thalexa
